import Mathlib

/- Verification development for the oneflow-api-helper repository.

   The Python sources are shallowly embedded: pure functions become Lean
   functions, dynamically-typed Python/JSON data becomes the `PyVal` type,
   Python exceptions become `Except String`, and external capabilities
   (the language-model provider, the vector store, `hashlib.md5`,
   `json.loads`, the filesystem, the process clock) become explicit
   function/state parameters. -/

namespace OneFlow

/-- Python dictionary key as it appears in YAML/JSON-derived data:
either a string or an integer (e.g. the bare response code `200:` in a
YAML mapping is parsed by `yaml.safe_load` as the integer key `200`). -/
inductive PyKey where
  | kstr (s : String)
  | kint (n : Int)
deriving DecidableEq, Repr

mutual
/-- Dynamically-typed Python value covering the JSON/YAML fragment the
repository manipulates: strings, ints, floats (modelled exactly as
rationals), booleans, `None`, lists, and dictionaries. -/
inductive PyVal where
  | pstr (s : String)
  | pint (n : Int)
  | pfloat (q : Rat)
  | pbool (b : Bool)
  | pnull
  | parr (xs : PyList)
  | pobj (kvs : PyObj)
/-- Lists of Python values (mutual with `PyVal` so that all recursions
are structural and kernel-reducible). -/
inductive PyList where
  | nil
  | cons (hd : PyVal) (tl : PyList)
/-- Association list of a Python dictionary, in insertion order. -/
inductive PyObj where
  | nil
  | cons (k : PyKey) (v : PyVal) (tl : PyObj)
end

deriving instance DecidableEq for PyVal
deriving instance DecidableEq for PyList
deriving instance DecidableEq for PyObj

/-- Convert a Lean list of values into a `PyList`. -/
def PyList.ofList : List PyVal → PyList
  | [] => .nil
  | x :: xs => .cons x (PyList.ofList xs)

/-- Convert a `PyList` back into a Lean list. -/
def PyList.toList : PyList → List PyVal
  | .nil => []
  | .cons x xs => x :: PyList.toList xs

/-- Convert a Lean association list into a `PyObj`. -/
def PyObj.ofList : List (PyKey × PyVal) → PyObj
  | [] => .nil
  | (k, v) :: kvs => .cons k v (PyObj.ofList kvs)

/-- Convert a `PyObj` back into a Lean association list. -/
def PyObj.toList : PyObj → List (PyKey × PyVal)
  | .nil => []
  | .cons k v kvs => (k, v) :: PyObj.toList kvs

/-- Build a dictionary value from string keys (the common case in the
repository's own literals). -/
def pdict (kvs : List (String × PyVal)) : PyVal :=
  .pobj (PyObj.ofList (kvs.map fun kv => (.kstr kv.1, kv.2)))

/-- Build a list value from a Lean list. -/
def plist (xs : List PyVal) : PyVal := .parr (PyList.ofList xs)

/-- Build a list-of-strings value. -/
def pstrs (xs : List String) : PyVal := plist (xs.map .pstr)

/-- Look up a string key in a dictionary (first occurrence, as in a
Python dict where keys are unique). -/
def PyObj.lookupStr (k : String) : PyObj → Option PyVal
  | .nil => none
  | .cons k' v kvs => if k' = .kstr k then some v else PyObj.lookupStr k kvs

/-- Python dictionary assignment `d[k] = v`: replaces the value at an
existing key in place, otherwise appends the binding at the end. -/
def PyObj.insert (o : PyObj) (k : PyKey) (v : PyVal) : PyObj :=
  match o with
  | .nil => .cons k v .nil
  | .cons k' v' kvs =>
    if k' = k then .cons k' v kvs else .cons k' v' (kvs.insert k v)

/-- Python `dict.setdefault(k, v)`: inserts `k ↦ v` only when the key is
absent (new keys go to the end, matching insertion order). -/
def PyObj.setdefault (o : PyObj) (k : String) (v : PyVal) : PyObj :=
  match o.lookupStr k with
  | some _ => o
  | none => o.insert (.kstr k) v

/-- Python truthiness of a value (`if x:`). -/
def pyTruthy : PyVal → Bool
  | .pstr s => s ≠ ""
  | .pint n => n ≠ 0
  | .pfloat q => q ≠ 0
  | .pbool b => b
  | .pnull => false
  | .parr xs => xs ≠ .nil
  | .pobj kvs => kvs ≠ .nil

/-- Python `d.get(k, default)`: never raises on a dict; raises
`AttributeError` when the receiver is not a dict. -/
def pyGetD (v : PyVal) (k : String) (default : PyVal) : Except String PyVal :=
  match v with
  | .pobj kvs => .ok ((kvs.lookupStr k).getD default)
  | _ => .error "AttributeError: object has no attribute get"

/-- Python `d[k]` on a string key: `KeyError` when absent, `TypeError`
when the receiver is not a dict. -/
def pyGetItem (v : PyVal) (k : String) : Except String PyVal :=
  match v with
  | .pobj kvs =>
    match kvs.lookupStr k with
    | some x => .ok x
    | none => .error ("KeyError: " ++ k)
  | _ => .error "TypeError: object is not subscriptable"

/-- Python `k in v` for a string key: membership in a dict's keys;
raises `TypeError` on non-containers (the repository only uses it on
dicts). -/
def pyContainsKey (v : PyVal) (k : String) : Except String Bool :=
  match v with
  | .pobj kvs => .ok (kvs.lookupStr k).isSome
  | _ => .error "TypeError: argument is not iterable"

/-- Python `d.items()`: the key/value pairs of a dict in insertion
order; raises `AttributeError` on non-dicts. -/
def pyItems (v : PyVal) : Except String (List (PyKey × PyVal)) :=
  match v with
  | .pobj kvs => .ok kvs.toList
  | _ => .error "AttributeError: object has no attribute items"

/-- Python iteration `for x in v`: list elements, dict keys, or the
characters of a string; `TypeError` otherwise. -/
def pyIter (v : PyVal) : Except String (List PyVal) :=
  match v with
  | .parr xs => .ok xs.toList
  | .pobj kvs => .ok (kvs.toList.map fun kv =>
      match kv.1 with
      | .kstr s => .pstr s
      | .kint n => .pint n)
  | .pstr s => .ok (s.data.map fun c => .pstr ⟨[c]⟩)
  | _ => .error "TypeError: object is not iterable"

/-! Python string primitives (ASCII-faithful models of the `str`
methods the repository uses). -/

/-- Python `str.lower()` (ASCII range, which covers all uses in the
repository). -/
def strLower (s : String) : String := ⟨s.data.map Char.toLower⟩

/-- Python `str.upper()` (ASCII range). -/
def strUpper (s : String) : String := ⟨s.data.map Char.toUpper⟩

/-- Substring test on character lists (`sub in hay` for Python
strings). -/
def listContainsSub (hay sub : List Char) : Bool :=
  match hay with
  | [] => sub.isEmpty
  | _ :: t => if sub.isPrefixOf hay then true else listContainsSub t sub

/-- Python `needle in haystack` on strings. -/
def strContains (haystack needle : String) : Bool :=
  listContainsSub haystack.data needle.data

/-- First index at which `sub` occurs in `hay`, if any (Python
`str.find`, with `none` for Python's `-1`). -/
def listFindSub (hay sub : List Char) : Option Nat :=
  match hay with
  | [] => if sub.isEmpty then some 0 else none
  | _ :: t =>
    if sub.isPrefixOf hay then some 0
    else (listFindSub t sub).map (· + 1)

/-- Python `str.find(sub)`. -/
def strFind (s sub : String) : Option Nat := listFindSub s.data sub.data

/-- Python `str.find(sub, start)`: first occurrence at index ≥ `start`,
reported as an absolute index. -/
def strFindFrom (s sub : String) (start : Nat) : Option Nat :=
  (listFindSub (s.data.drop start) sub.data).map (· + start)

/-- Last index of character `c` in `s` (Python `str.rfind(c)` for a
single-character pattern). -/
def strRFindChar (s : String) (c : Char) : Option Nat :=
  (listFindSub s.data.reverse [c]).map (fun i => s.data.length - 1 - i)

/-- Python slice `s[a:b]` for natural bounds (clamping, empty when
`b ≤ a`). -/
def strSlice (s : String) (a b : Nat) : String :=
  ⟨(s.data.drop a).take (b - a)⟩

/-- Python `str.strip()` (ASCII whitespace). -/
def strStrip (s : String) : String :=
  ⟨(s.data.dropWhile Char.isWhitespace).reverse.dropWhile Char.isWhitespace |>.reverse⟩

/-- Python `str.endswith(suffix)` (the correct single-argument form). -/
def strEndsWith (s suffix : String) : Bool :=
  suffix.data.isSuffixOf s.data

/-- Decimal digits of a natural number (fuel-structured so that the
kernel can evaluate it). -/
def natDigitsAux : Nat → Nat → List Char
  | 0, _ => []
  | fuel+1, n =>
    if n < 10 then [Char.ofNat (48 + n)]
    else natDigitsAux fuel (n / 10) ++ [Char.ofNat (48 + n % 10)]

/-- Python `str(i)` for an integer. -/
def intToStr (i : Int) : String :=
  match i with
  | .ofNat n => ⟨natDigitsAux (n+1) n⟩
  | .negSucc m => ⟨'-' :: natDigitsAux (m+2) (m+1)⟩

/-- Python `str(k)` for a dictionary key. -/
def PyKey.toStr : PyKey → String
  | .kstr s => s
  | .kint n => intToStr n

/-- Python `str()`/f-string rendering of a value. Containers are
rendered in a Python-like notation; the repository's claims never
depend on the exact container rendering, only on its determinism. -/
def pyStr : PyVal → String
  | .pstr s => s
  | .pint n => intToStr n
  | .pfloat q => intToStr q.num ++ "/" ++ intToStr q.den
  | .pbool b => if b then "True" else "False"
  | .pnull => "None"
  | .parr _ => "[...]"
  | .pobj _ => "\x7b...\x7d"

/-- Python `k.upper()` on a loop variable that is a dictionary key:
raises `AttributeError` when the key is an integer. -/
def pyKeyUpper : PyKey → Except String String
  | .kstr s => .ok (strUpper s)
  | .kint _ => .error "AttributeError: int object has no attribute upper"

/-- Python `k.lower()` on a value expected to be a string (used on
tags): raises `AttributeError` on non-strings. -/
def pyStrLower : PyVal → Except String String
  | .pstr s => .ok (strLower s)
  | _ => .error "AttributeError: object has no attribute lower"

/-- Python `needle in v` where `v` is expected to be a string: raises
`TypeError` on non-strings. -/
def pyStrContains (v : PyVal) (needle : String) : Except String Bool :=
  match v with
  | .pstr s => .ok (strContains s needle)
  | _ => .error "TypeError: in requires string as left operand"

/-- Python `len(v)`: length of a string, list or dict; `TypeError`
otherwise. -/
def pyLen (v : PyVal) : Except String Nat :=
  match v with
  | .pstr s => .ok s.data.length
  | .parr xs => .ok xs.toList.length
  | .pobj kvs => .ok kvs.toList.length
  | _ => .error "TypeError: object has no len"

/-! Simple assessment engine (`src/components/feasibility_analyzer.py`,
class `FeasibilityAnalyzer`). The OpenAI client and `json.loads` are
external capabilities, passed as parameters. -/

/-- The static table `self.business_capabilities` from
`FeasibilityAnalyzer.__init__`. -/
def business_capabilities : List (String × PyVal) := [
  ("contract_creation", pdict [
    ("description", .pstr "Create contracts from templates or scratch"),
    ("supported", .pbool true),
    ("caveats", pstrs ["Requires valid template", "Template must be active"]),
    ("endpoints", pstrs ["/templates", "/contracts/create"])]),
  ("file_management", pdict [
    ("description", .pstr "Upload and manage files/documents"),
    ("supported", .pbool true),
    ("caveats", pstrs ["Template must allow file attachments", "Size limits apply", "Separate API call after contract creation"]),
    ("endpoints", pstrs ["/contracts/{id}/files"])]),
  ("multi_party_contracts", pdict [
    ("description", .pstr "Contracts with multiple parties and signers"),
    ("supported", .pbool true),
    ("caveats", pstrs ["Each party needs valid email", "Signing order configurable"]),
    ("endpoints", pstrs ["/contracts/{id}/parties", "/contracts/{id}/participants"])]),
  ("template_management", pdict [
    ("description", .pstr "Create and manage contract templates"),
    ("supported", .pbool true),
    ("caveats", pstrs ["Template creation may require admin rights", "Template changes affect existing contracts"]),
    ("endpoints", pstrs ["/templates", "/template_types"])]),
  ("webhook_integration", pdict [
    ("description", .pstr "Real-time notifications and integrations"),
    ("supported", .pbool true),
    ("caveats", pstrs ["Requires accessible webhook endpoint", "Event types are predefined"]),
    ("endpoints", pstrs ["/webhooks"])]),
  ("contact_management", pdict [
    ("description", .pstr "Manage contacts and party information"),
    ("supported", .pbool true),
    ("caveats", pstrs ["Contact validation depends on data quality", "Duplicate detection is basic"]),
    ("endpoints", pstrs ["/contacts"])]),
  ("contract_publishing", pdict [
    ("description", .pstr "Publish contracts for signing"),
    ("supported", .pbool true),
    ("caveats", pstrs ["All required fields must be completed", "Cannot unpublish once sent"]),
    ("endpoints", pstrs ["/contracts/{id}/publish"])]),
  ("data_extraction", pdict [
    ("description", .pstr "Extract data from signed contracts"),
    ("supported", .pbool true),
    ("caveats", pstrs ["Depends on template data field configuration", "Custom fields need setup"]),
    ("endpoints", pstrs ["/contracts/{id}/data_fields"])])]

/-- `FeasibilityAnalyzer._explain_confidence`: the confidence-reasoning
sentence; `len` on a non-sized `important_caveats` value raises, which
the caller's `except` observes. -/
def explain_confidence (assessment : PyObj) : Except String String := do
  let confidence := (assessment.lookupStr "confidence").getD (.pstr "Medium")
  let caveats_count ← pyLen ((assessment.lookupStr "important_caveats").getD (plist []))
  if confidence = .pstr "High" then
    .ok "Standard OneFlow capability with well-documented implementation path"
  else if confidence = .pstr "Low" then
    .ok ("Complex implementation with " ++ intToStr caveats_count ++ " important considerations")
  else
    .ok ("Feasible with " ++ intToStr caveats_count ++ " key requirements that need attention")

/-- The keys defaulted by
`FeasibilityAnalyzer._validate_and_enhance_assessment` (its eight
`setdefault` calls, in source order). -/
def simple_required_fields : List (String × PyVal) := [
  ("feasibility", .pstr "Conditional"),
  ("confidence", .pstr "Medium"),
  ("quick_answer", .pstr "Technical assessment completed"),
  ("capabilities_used", plist []),
  ("important_caveats", plist []),
  ("business_impact", .pstr "Standard implementation considerations apply"),
  ("related_features", plist []),
  ("follow_up_questions", plist [])]

/-- `FeasibilityAnalyzer._validate_and_enhance_assessment`: applies the
eight `setdefault`s and then adds `confidence_reasoning`. -/
def validate_and_enhance_assessment (assessment : PyObj) : Except String PyObj := do
  let a := simple_required_fields.foldl (fun d kv => d.setdefault kv.1 kv.2) assessment
  let reasoning ← explain_confidence a
  .ok (a.insert (.kstr "confidence_reasoning") (.pstr reasoning))

/-- `FeasibilityAnalyzer._create_fallback_from_text`: assessment built
from an unstructured model reply. -/
def create_fallback_from_text (response_text : String) : PyVal :=
  pdict [
    ("feasibility", .pstr "Conditional"),
    ("confidence", .pstr "Medium"),
    ("quick_answer", .pstr (if response_text.data.length > 200
      then strSlice response_text 0 200 ++ "..." else response_text)),
    ("capabilities_used", plist []),
    ("important_caveats", pstrs ["Assessment based on unstructured analysis"]),
    ("business_impact", .pstr "Manual review recommended"),
    ("related_features", plist []),
    ("follow_up_questions", pstrs ["Please rephrase your question for more accurate assessment"]),
    ("confidence_reasoning", .pstr "Unstructured response format"),
    ("fallback_used", .pbool true)]

/-- Tail of the `try` block of
`FeasibilityAnalyzer._parse_openai_response`: `json.loads` the
extracted text and validate; any exception (parse failure, or
`setdefault`/`len` on an ill-typed result) is caught and yields
`_create_fallback_from_text`. -/
def parse_json_and_validate (jsonLoads : String → Except String PyVal)
    (json_text response_text : String) : PyVal :=
  match jsonLoads json_text with
  | .ok (.pobj kvs) =>
    match validate_and_enhance_assessment kvs with
    | .ok d => .pobj d
    | .error _ => create_fallback_from_text response_text
  | _ => create_fallback_from_text response_text

/-- `FeasibilityAnalyzer._parse_openai_response`: extract a JSON object
from the model's text (fenced block, or first `\x7b` to last `\x7d`),
parse and validate it, falling back to `_create_fallback_from_text`. -/
def parse_openai_response (jsonLoads : String → Except String PyVal)
    (response_text : String) : PyVal :=
  match strFind response_text "```json" with
  | some i =>
    let start := i + 7
    let json_text :=
      match strFindFrom response_text "```" start with
      | some e => strSlice response_text start e
      | none => strSlice response_text start (response_text.data.length - 1)
    parse_json_and_validate jsonLoads (strStrip json_text) response_text
  | none =>
    if strContains response_text "\x7b" ∧ strContains response_text "\x7d" then
      let start := (strFind response_text "\x7b").getD 0
      let stop := (strRFindChar response_text '\x7d').getD 0 + 1
      parse_json_and_validate jsonLoads (strSlice response_text start stop) response_text
    else create_fallback_from_text response_text

/-- `FeasibilityAnalyzer._create_fallback_assessment`: the three-tier
keyword fallback used when the model call fails. -/
def create_fallback_assessment (sales_question : String) : PyVal :=
  let question_lower := strLower sales_question
  if ["create", "contract", "template"].any (fun w => strContains question_lower w) then
    pdict [
      ("feasibility", .pstr "Yes"),
      ("confidence", .pstr "High"),
      ("quick_answer", .pstr "Contract creation from templates is a core OneFlow capability."),
      ("capabilities_used", pstrs ["contract_creation", "template_management"]),
      ("important_caveats", pstrs ["Requires a valid, active template", "Template must be properly configured for intended use"]),
      ("business_impact", .pstr "Standard implementation - no unusual complexity"),
      ("related_features", pstrs ["file_management", "multi_party_contracts"]),
      ("follow_up_questions", pstrs ["What type of contract template do you need?", "How many parties will typically be involved?"]),
      ("confidence_reasoning", .pstr "Core OneFlow functionality"),
      ("fallback_used", .pbool true)]
  else if ["pdf", "file", "attach", "upload"].any (fun w => strContains question_lower w) then
    pdict [
      ("feasibility", .pstr "Yes"),
      ("confidence", .pstr "Medium"),
      ("quick_answer", .pstr "File attachments are supported, with some configuration requirements."),
      ("capabilities_used", pstrs ["file_management"]),
      ("important_caveats", pstrs ["Template must be configured to allow file attachments", "Files are added after contract creation (separate API call)", "File size and format restrictions apply"]),
      ("business_impact", .pstr "May require template reconfiguration for some use cases"),
      ("related_features", pstrs ["contract_creation", "template_management"]),
      ("follow_up_questions", pstrs ["What file types need to be supported?", "Who will be uploading the files?"]),
      ("confidence_reasoning", .pstr "Requires template configuration considerations"),
      ("fallback_used", .pbool true)]
  else
    pdict [
      ("feasibility", .pstr "Conditional"),
      ("confidence", .pstr "Low"),
      ("quick_answer", .pstr "Need more specific information to assess feasibility."),
      ("capabilities_used", plist []),
      ("important_caveats", pstrs ["Insufficient information for detailed assessment"]),
      ("business_impact", .pstr "Cannot assess without more details"),
      ("related_features", pstrs ((business_capabilities.map (·.1)).take 3)),
      ("follow_up_questions", pstrs ["Can you provide more specific details about what you need to accomplish?", "What is the main business process you\x27re trying to automate?"]),
      ("confidence_reasoning", .pstr "Need more information for accurate assessment"),
      ("fallback_used", .pbool true)]

/-- `FeasibilityAnalyzer.assess_feasibility`: one model call whose
result (or failure) is the `llm` parameter; any provider failure is
caught and answered with `_create_fallback_assessment`. -/
def assess_feasibility (llm : Except String String)
    (jsonLoads : String → Except String PyVal) (sales_question : String) : PyVal :=
  match llm with
  | .ok response_text => parse_openai_response jsonLoads response_text
  | .error _ => create_fallback_assessment sales_question

/-! Response formatter (`src/components/response_generator.py`, class
`ResponseGenerator`). The ambient mutable/external state of the process
(the clock read by `datetime.now()` in `create_summary_export`) is made
explicit as a `WorldState` parameter threaded to every method of the
class; `generate_response` receives it like the rest. -/

/-- Ambient external state available to the formatter's methods: the
process clock (`datetime.now().isoformat()`). -/
structure WorldState where
  nowIso : String
deriving DecidableEq

/-- Replace every occurrence of one character (Python
`str.replace('_', ' ')`). -/
def strReplaceChar (s : String) (old new : Char) : String :=
  ⟨s.data.map (fun c => if c = old then new else c)⟩

/-- Python `str.title()`: uppercase each letter that starts a run of
letters, lowercase the rest. -/
def strTitle (s : String) : String :=
  ⟨(s.data.foldl (fun (acc : List Char × Bool) c =>
      if c.isAlpha then
        ((if acc.2 then Char.toLower c else Char.toUpper c) :: acc.1, true)
      else (c :: acc.1, false)) ([], false)).1.reverse⟩

/-- `ResponseGenerator.__init__`: `self.confidence_emojis`. -/
def confidence_emojis : List (String × String) :=
  [("High", "🟢"), ("Medium", "🟡"), ("Low", "🔴")]

/-- `ResponseGenerator.__init__`: `self.feasibility_emojis`. -/
def feasibility_emojis : List (String × String) :=
  [("Yes", "✅"), ("No", "❌"), ("Conditional", "⚠️")]

/-- Python `table.get(v, default)` where the table has string keys and
`v` is an arbitrary value: a non-string key simply misses. -/
def emojiLookup (table : List (String × String)) (v : PyVal) (default : String) : String :=
  match v with
  | .pstr s => (table.lookup s).getD default
  | _ => default

/-- `ResponseGenerator._create_header`. -/
def create_header (assessment : PyVal) (original_question : String) : Except String String := do
  let _ := original_question
  let feasibility ← pyGetD assessment "feasibility" (.pstr "Conditional")
  let confidence ← pyGetD assessment "confidence" (.pstr "Medium")
  let quick_answer ← pyGetD assessment "quick_answer" (.pstr "Assessment completed")
  let feasibility_icon := emojiLookup feasibility_emojis feasibility "❓"
  let confidence_icon := emojiLookup confidence_emojis confidence "🟡"
  .ok ("**" ++ feasibility_icon ++ " Quick Answer: " ++ pyStr feasibility ++ "** "
    ++ confidence_icon ++ "\n\n" ++ "**" ++ pyStr quick_answer ++ "**")

/-- The `capability_descriptions` table inside
`ResponseGenerator._create_explanation`. -/
def capability_descriptions : List (String × String) := [
  ("contract_creation", "Create contracts from your templates"),
  ("file_management", "Upload and manage documents/files"),
  ("multi_party_contracts", "Handle contracts with multiple parties and signers"),
  ("template_management", "Create and customize contract templates"),
  ("webhook_integration", "Set up real-time notifications and integrations"),
  ("contact_management", "Manage contact information and party details"),
  ("contract_publishing", "Send contracts for review and signing"),
  ("data_extraction", "Extract and use data from completed contracts")]

/-- `ResponseGenerator._create_explanation`. -/
def create_explanation (assessment : PyVal) : Except String String := do
  let capabilities ← pyGetD assessment "capabilities_used" (plist [])
  if ¬ pyTruthy capabilities then
    .ok "This request can be assessed based on OneFlow\x27s general API capabilities."
  else do
    let items ← pyIter capabilities
    let lines ← items.mapM (fun cap =>
      match cap with
      | .pstr s => Except.ok ((capability_descriptions.lookup s).getD
          ("Use " ++ strReplaceChar s '_' ' '))
      | _ => Except.error "AttributeError: object has no attribute replace")
    .ok ("**How this works with OneFlow:**\n"
      ++ String.join (lines.map (fun d => "• " ++ d ++ "\n")))

/-- `ResponseGenerator._create_caveats_section`. -/
def create_caveats_section (assessment : PyVal) : Except String String := do
  let caveats ← pyGetD assessment "important_caveats" (plist [])
  if ¬ pyTruthy caveats then .ok ""
  else do
    let items ← pyIter caveats
    .ok ("**Important Considerations:**\n"
      ++ String.join (items.map (fun c => "• " ++ pyStr c ++ "\n")))

/-- `ResponseGenerator._create_business_impact`. -/
def create_business_impact (assessment : PyVal) : Except String String := do
  let impact ← pyGetD assessment "business_impact" (.pstr "")
  if ¬ pyTruthy impact ∨ impact = .pstr "Standard implementation considerations apply" then
    .ok ""
  else .ok ("**Business Impact:** " ++ pyStr impact)

/-- The `feature_names` table inside
`ResponseGenerator._create_related_features`. -/
def feature_names : List (String × String) := [
  ("contract_creation", "Contract Creation"),
  ("file_management", "Document Management"),
  ("multi_party_contracts", "Multi-Party Workflows"),
  ("template_management", "Template Customization"),
  ("webhook_integration", "API Integrations"),
  ("contact_management", "Contact Database"),
  ("contract_publishing", "Digital Signing"),
  ("data_extraction", "Data Automation")]

/-- `ResponseGenerator._create_related_features` (top three only). -/
def create_related_features (assessment : PyVal) : Except String String := do
  let related ← pyGetD assessment "related_features" (plist [])
  if ¬ pyTruthy related then .ok ""
  else do
    let items ← pyIter related
    let names ← (items.take 3).mapM (fun feature =>
      match feature with
      | .pstr s => Except.ok ((feature_names.lookup s).getD
          (strTitle (strReplaceChar s '_' ' ')))
      | _ => Except.error "AttributeError: object has no attribute replace")
    .ok ("**You might also be interested in:**\n"
      ++ String.join (names.map (fun n => "• " ++ n ++ "\n")))

/-- `ResponseGenerator._create_follow_up_section` (top three only). -/
def create_follow_up_section (assessment : PyVal) : Except String String := do
  let questions ← pyGetD assessment "follow_up_questions" (plist [])
  if ¬ pyTruthy questions then .ok ""
  else do
    let items ← pyIter questions
    .ok ("**To better help you, I\x27d like to know:**\n"
      ++ String.join ((items.take 3).map (fun q => "• " ++ pyStr q ++ "\n")))

/-- `ResponseGenerator._create_confidence_footer`. -/
def create_confidence_footer (assessment : PyVal) : Except String String := do
  let confidence ← pyGetD assessment "confidence" (.pstr "Medium")
  let reasoning ← pyGetD assessment "confidence_reasoning" (.pstr "")
  let confidence_icon := emojiLookup confidence_emojis confidence "🟡"
  let footer := "**" ++ confidence_icon ++ " Confidence Level: " ++ pyStr confidence ++ "**"
  let footer := if pyTruthy reasoning then footer ++ " - " ++ pyStr reasoning else footer
  let fallback ← pyGetD assessment "fallback_used" .pnull
  if pyTruthy fallback then
    .ok (footer ++ "\n\n*Note: This assessment used fallback analysis. For more detailed evaluation, please ensure OpenAI integration is available.*")
  else .ok footer

/-- `ResponseGenerator._create_error_response`. -/
def create_error_response (error_message : String) : String :=
  "**❌ Assessment Error**\n\nI encountered an issue while generating this response: "
  ++ error_message
  ++ "\n\nPlease try rephrasing your question or contact support if the issue persists.\n\n**You can try asking:**\n• \"Can OneFlow create contracts from templates?\"\n• \"Does OneFlow support file attachments?\"\n• \"Can we set up multi-party contracts?\"\n"

/-- The `try` block of `ResponseGenerator.generate_response`: assemble
the section list and join with blank lines. -/
def generate_response_body (assessment : PyVal) (original_question : String) :
    Except String String := do
  let header ← create_header assessment original_question
  let explanation ← create_explanation assessment
  let caveatsFlag ← pyGetD assessment "important_caveats" .pnull
  let caveats ← create_caveats_section assessment
  let impact ← create_business_impact assessment
  let relatedFlag ← pyGetD assessment "related_features" .pnull
  let related ← create_related_features assessment
  let questionsFlag ← pyGetD assessment "follow_up_questions" .pnull
  let followUps ← create_follow_up_section assessment
  let footer ← create_confidence_footer assessment
  let parts := [header, explanation]
    ++ (if pyTruthy caveatsFlag then [caveats] else [])
    ++ [impact]
    ++ (if pyTruthy relatedFlag then [related] else [])
    ++ (if pyTruthy questionsFlag then [followUps] else [])
    ++ [footer]
  .ok (String.intercalate "\n\n" parts)

/-- `ResponseGenerator.generate_response`: never raises past its own
boundary; any formatting exception becomes `_create_error_response`.
The method reads no ambient state, so `w` is unused in its body. -/
def generate_response (w : WorldState) (assessment : PyVal)
    (original_question : String) : String :=
  let _ := w
  match generate_response_body assessment original_question with
  | .ok s => s
  | .error e => create_error_response e

/-- `ResponseGenerator.create_summary_export`: in contrast to
`generate_response`, this method does read the clock. -/
def create_summary_export (w : WorldState) (assessment : PyVal)
    (original_question : String) : Except String PyVal := do
  let followUps ← pyGetD assessment "follow_up_questions" (plist [])
  let n ← pyLen followUps
  let fallback ← pyGetD assessment "fallback_used" .pnull
  let feasibility ← pyGetD assessment "feasibility" .pnull
  let confidence ← pyGetD assessment "confidence" .pnull
  let quick_answer ← pyGetD assessment "quick_answer" .pnull
  let caveats ← pyGetD assessment "important_caveats" (plist [])
  let impact ← pyGetD assessment "business_impact" .pnull
  let caps ← pyGetD assessment "capabilities_used" (plist [])
  .ok (pdict [
    ("timestamp", .pstr w.nowIso),
    ("question", .pstr original_question),
    ("feasibility", feasibility),
    ("confidence", confidence),
    ("quick_answer", quick_answer),
    ("key_caveats", caveats),
    ("business_impact", impact),
    ("capabilities_involved", caps),
    ("follow_up_needed", .pbool (n > 0)),
    ("assessment_method", .pstr (if pyTruthy fallback then "Fallback" else "AI-Powered"))])

/-! Hybrid retrieval engine (`src/enhanced_feasibility_analyzer.py`,
class `EnhancedFeasibilityAnalyzer`). The vector stores
(`similarity_search_with_score`), `hashlib.md5(...).hexdigest()` and the
chat model are external capabilities, passed as parameters. -/

/-- The `ContentType` enum. -/
inductive ContentType where
  | api_spec
  | integration_guide
  | tutorial
  | glossary
  | use_case
deriving DecidableEq

/-- `ContentType.value`. -/
def ContentType.value : ContentType → String
  | .api_spec => "api_spec"
  | .integration_guide => "integration_guide"
  | .tutorial => "tutorial"
  | .glossary => "glossary"
  | .use_case => "use_case"

/-- The enum constructor `ContentType(s)`: `ValueError` on an unknown
value (caught by the per-collection handlers in the search loops). -/
def ContentType.ofValue (v : PyVal) : Except String ContentType :=
  if v = .pstr "api_spec" then .ok .api_spec
  else if v = .pstr "integration_guide" then .ok .integration_guide
  else if v = .pstr "tutorial" then .ok .tutorial
  else if v = .pstr "glossary" then .ok .glossary
  else if v = .pstr "use_case" then .ok .use_case
  else .error "ValueError: not a valid ContentType"

/-- A langchain `Document` as stored in / returned by the vector
stores: text content plus a metadata dictionary. -/
structure LCDocument where
  page_content : String
  metadata : PyVal
deriving DecidableEq

/-- The `SearchResult` dataclass. The similarity score (a float from
the underlying store, lower = more similar) is modelled as a
rational. -/
structure SearchResult where
  content : String
  metadata : PyVal
  score : Rat
  source_type : ContentType
deriving DecidableEq

/-- Stable insertion helper: `x` goes after every `y` with `keep y x`
(so a run of equal keys retains its original order). -/
def pyInsertBy {α : Type} (keep : α → α → Bool) (x : α) : List α → List α
  | [] => [x]
  | y :: ys => if keep y x then y :: pyInsertBy keep x ys else x :: y :: ys

/-- Stable sort modelling Python `sorted`: `keep y x` holds when `y`
must stay before `x` (for an ascending sort on a key, `key y ≤ key x`). -/
def pySortedBy {α : Type} (keep : α → α → Bool) (l : List α) : List α :=
  l.foldl (fun acc x => pyInsertBy keep x acc) []

/-- The collection names, in the insertion order of
`_initialize_hybrid_knowledge_base`. -/
def collection_names : List String :=
  ["api_specifications", "integration_guides", "tutorials_examples",
   "glossary_concepts", "use_cases_patterns"]

/-- `EnhancedFeasibilityAnalyzer._analyze_query_intent`: bag-of-words
relevance score of the question for each collection (a dict in
assignment order). -/
def analyze_query_intent (question : String) : List (String × Nat) :=
  let question_lower := strLower question
  let count := fun (keywords : List String) =>
    (keywords.filter (fun w => strContains question_lower w)).length
  [("api_specifications",
      count ["endpoint", "api", "parameter", "response", "request", "method", "post", "get"]),
   ("integration_guides",
      count ["integrate", "integration", "connect", "sync", "crm", "system", "workflow"]),
   ("tutorials_examples",
      count ["how to", "tutorial", "example", "step", "guide", "implement"]),
   ("use_cases_patterns",
      count ["business", "scenario", "pattern", "value", "benefit", "process"]),
   ("glossary_concepts",
      count ["what is", "define", "meaning", "term", "concept"])]

/-- Body of the result-collection loops in `_targeted_search` and
`_cross_collection_search`: build a `SearchResult` from one
`(document, score)` pair; subscripting the metadata and the enum
conversion can raise. -/
def mkSearchResult (doc : LCDocument) (score : Rat) : Except String SearchResult := do
  let sv ← pyGetItem doc.metadata "source_type"
  let st ← ContentType.ofValue sv
  .ok ⟨doc.page_content, doc.metadata, score, st⟩

/-- Append the successfully converted prefix of one collection's
results: an exception mid-loop aborts the rest of that collection's
loop (the per-collection `except` swallows it) but keeps the results
already appended. -/
def gatherResults : List (LCDocument × Rat) → List SearchResult
  | [] => []
  | (d, s) :: rest =>
    match mkSearchResult d s with
    | .ok r => r :: gatherResults rest
    | .error _ => []

/-- `EnhancedFeasibilityAnalyzer._targeted_search`: search the top two
collections by intent score (skipping zero scores); `search c q k`
models `self.vector_stores[c].similarity_search_with_score(q, k)`. -/
def targeted_search (search : String → String → Nat → Except String (List (LCDocument × Rat)))
    (question : String) (intent_scores : List (String × Nat)) (k : Nat) :
    List SearchResult :=
  let sorted_collections := pySortedBy (fun y x => y.2 ≥ x.2) intent_scores
  (sorted_collections.take 2).foldl (fun results kv =>
    if kv.2 > 0 then
      match search kv.1 question (if sorted_collections.length > 1 then k / 2 else k) with
      | .ok pairs => results ++ gatherResults pairs
      | .error _ => results
    else results) []

/-- `EnhancedFeasibilityAnalyzer._cross_collection_search`: query every
collection for a small share of the budget. -/
def cross_collection_search
    (search : String → String → Nat → Except String (List (LCDocument × Rat)))
    (question : String) (k : Nat) : List SearchResult :=
  let per_collection_k := max 1 (k / collection_names.length)
  collection_names.foldl (fun results c =>
    match search c question per_collection_k with
    | .ok pairs => results ++ gatherResults pairs
    | .error _ => results) []

/-- Deduplication pass of `_merge_and_rank_results`: drop results whose
`md5` content hash was already seen. -/
def dedup_by_hash (md5hex : String → String) :
    List SearchResult → List String → List SearchResult
  | [], _ => []
  | r :: rs, seen =>
    if seen.contains (md5hex r.content) then dedup_by_hash md5hex rs seen
    else r :: dedup_by_hash md5hex rs (md5hex r.content :: seen)

/-- Diversity pass of `_merge_and_rank_results`: greedily keep results
while capping each source type at three occurrences. -/
def diversity_filter : List SearchResult → (ContentType → Nat) → List SearchResult
  | [], _ => []
  | r :: rs, counts =>
    if counts r.source_type < 3 then
      r :: diversity_filter rs
        (fun st => if st = r.source_type then counts st + 1 else counts st)
    else diversity_filter rs counts

/-- `EnhancedFeasibilityAnalyzer._merge_and_rank_results`: concatenate,
sort ascending by score, deduplicate by content hash, then enforce the
three-per-source-type diversity cap. `md5hex` models
`hashlib.md5(content.encode()).hexdigest()`. -/
def merge_and_rank_results (md5hex : String → String)
    (primary context : List SearchResult) : List SearchResult :=
  let all_results := primary ++ context
  let unique_results :=
    dedup_by_hash md5hex (pySortedBy (fun y x => y.score ≤ x.score) all_results) []
  diversity_filter unique_results (fun _ => 0)

/-- `EnhancedFeasibilityAnalyzer.hybrid_search` (default `k = 8`). -/
def hybrid_search (md5hex : String → String)
    (search : String → String → Nat → Except String (List (LCDocument × Rat)))
    (question : String) (k : Nat := 8) : List SearchResult :=
  let query_intent := analyze_query_intent question
  let primary_results := targeted_search search question query_intent (k / 2)
  let context_results := cross_collection_search search question (k / 2)
  (merge_and_rank_results md5hex primary_results context_results).take k

/-- The `EnhancedAssessment` dataclass. Fields are dynamically typed in
Python (they hold whatever the parsed JSON contained), so they are
`PyVal` here; `sources` always holds the search results. -/
structure EnhancedAssessment where
  feasibility : PyVal
  confidence : PyVal
  explanation : PyVal
  api_requirements : PyVal
  integration_complexity : PyVal
  business_context : PyVal
  caveats : PyVal
  related_endpoints : PyVal
  integration_patterns : PyVal
  implementation_steps : PyVal
  sources : List SearchResult
deriving DecidableEq

/-- `EnhancedFeasibilityAnalyzer._create_fallback_enhanced_assessment`. -/
def create_fallback_enhanced_assessment (question : String) (error : String := "") :
    EnhancedAssessment :=
  let _ := question
  { feasibility := .pstr "NEEDS_ANALYSIS"
    confidence := .pfloat (3/10)
    explanation := .pstr ("Could not complete enhanced analysis. " ++ error)
    api_requirements := pstrs ["Manual review required"]
    integration_complexity := .pstr "UNKNOWN - requires detailed analysis"
    business_context := .pstr "Unable to determine without proper analysis"
    caveats := pstrs ["Enhanced analysis system unavailable", "Fallback assessment provided"]
    related_endpoints := plist []
    integration_patterns := plist []
    implementation_steps := pstrs ["Contact technical team for detailed assessment"]
    sources := [] }

/-- Grouping step of `_create_enhanced_prompt`: bucket the result
contents by source-type value, in first-seen order (Python dict
insertion order). -/
def groupContextByType (results : List SearchResult) : List (String × List String) :=
  results.foldl (fun acc r => addToGroup acc r.source_type.value r.content) []
where
  addToGroup : List (String × List String) → String → String → List (String × List String)
    | [], st, c => [(st, [c])]
    | (k, cs) :: rest, st, c =>
      if k = st then (k, cs ++ [c]) :: rest else (k, cs) :: addToGroup rest st c

/-- Opening part of the `prompt_template` string literal in
`_create_enhanced_prompt` (up to its `\x7bcontext\x7d` placeholder). -/
def enhanced_prompt_head : String :=
  "You are an expert OneFlow integration consultant helping sales teams assess technical feasibility.\n\nCONTEXT FROM ONEFLOW DOCUMENTATION:\n"

/-- Middle part of the `prompt_template` literal (between the
`\x7bcontext\x7d` and `\x7bquestion\x7d` placeholders). -/
def enhanced_prompt_mid : String :=
  "\n\nSALES QUESTION: "

/-- Tail of the `prompt_template` literal (after the
`\x7bquestion\x7d` placeholder): the requested JSON shape and the
guidelines. -/
def enhanced_prompt_tail : String :=
  "\n\nProvide a comprehensive assessment in JSON format:\n\x7b\n    \"feasibility\": \"YES|NO|CONDITIONAL|NEEDS_ANALYSIS\",\n    \"confidence\": 0.0-1.0,\n    \"explanation\": \"Clear, business-focused explanation\",\n    \"api_requirements\": [\"Required API endpoints and methods\"],\n    \"integration_complexity\": \"LOW|MEDIUM|HIGH with detailed reasoning\",\n    \"business_context\": \"How this fits into business workflows\", \n    \"caveats\": [\"Important limitations, dependencies, requirements\"],\n    \"related_endpoints\": [\"Relevant API endpoints from context\"],\n    \"integration_patterns\": [\"Applicable integration patterns\"],\n    \"implementation_steps\": [\"High-level implementation steps\"],\n    \"timeline_estimate\": \"Realistic development timeline\",\n    \"cost_implications\": \"Development cost considerations\"\n\x7d\n\nGUIDELINES:\n- Use business language, avoid technical jargon\n- Be specific about API requirements and endpoints\n- Consider integration complexity realistically\n- Focus on sales impact and business value\n- Highlight any deal-breaking limitations\n- Reference specific OneFlow capabilities from context\n- Provide actionable implementation guidance"

/-- `EnhancedFeasibilityAnalyzer._create_enhanced_prompt`: the fully
formatted prompt (system template with context and question
substituted, followed by the human message). -/
def create_enhanced_prompt (question : String) (results : List SearchResult) : String :=
  let context_by_type := groupContextByType results
  let context_sections := context_by_type.map (fun kv =>
    "\n--- " ++ strReplaceChar (strUpper kv.1) '_' ' ' ++ " ---\n"
      ++ String.intercalate "\n\n" kv.2)
  let formatted_context := String.intercalate "\n" context_sections
  enhanced_prompt_head ++ formatted_context ++ enhanced_prompt_mid ++ question
    ++ enhanced_prompt_tail
    ++ "\nContext: " ++ formatted_context ++ "\n\nQuestion: " ++ question

/-- The `try` block of
`EnhancedFeasibilityAnalyzer._parse_enhanced_response`: locate the
greedy `re.DOTALL` match from the first `\x7b` to the last `\x7d`,
`json.loads` it, and read the fields with their defaults; raises when
no JSON-looking region exists, when parsing fails, or when the parsed
value is not a dict. -/
def parse_enhanced_core (jsonLoads : String → Except String PyVal)
    (response_content : String) (search_results : List SearchResult) :
    Except String EnhancedAssessment :=
  match strFind response_content "\x7b", strRFindChar response_content '\x7d' with
  | some i, some j =>
    if i < j then
      match jsonLoads (strSlice response_content i (j + 1)) with
      | .ok (.pobj kvs) => .ok {
          feasibility := (kvs.lookupStr "feasibility").getD (.pstr "CONDITIONAL")
          confidence := (kvs.lookupStr "confidence").getD (.pfloat (1/2))
          explanation := (kvs.lookupStr "explanation").getD (.pstr "Assessment completed")
          api_requirements := (kvs.lookupStr "api_requirements").getD (plist [])
          integration_complexity := (kvs.lookupStr "integration_complexity").getD (.pstr "MEDIUM")
          business_context := (kvs.lookupStr "business_context").getD (.pstr "Standard integration scenario")
          caveats := (kvs.lookupStr "caveats").getD (plist [])
          related_endpoints := (kvs.lookupStr "related_endpoints").getD (plist [])
          integration_patterns := (kvs.lookupStr "integration_patterns").getD (plist [])
          implementation_steps := (kvs.lookupStr "implementation_steps").getD (plist [])
          sources := search_results }
      | .ok _ => .error "AttributeError: object has no attribute get"
      | .error e => .error e
    else .error "No JSON found in response"
  | _, _ => .error "No JSON found in response"

/-- `EnhancedFeasibilityAnalyzer._parse_enhanced_response`: its own
`except` turns any parsing failure into the fallback assessment (with
an empty question and the error text). -/
def parse_enhanced_response (jsonLoads : String → Except String PyVal)
    (response_content : String) (search_results : List SearchResult) :
    EnhancedAssessment :=
  match parse_enhanced_core jsonLoads response_content search_results with
  | .ok a => a
  | .error e => create_fallback_enhanced_assessment "" e

/-- The `try` block of
`EnhancedFeasibilityAnalyzer.assess_feasibility_enhanced`. `searchStep`
is the evaluation of `self.hybrid_search(question, k=8)` (which may in
principle raise inside the store wrapper); `llm` is the awaited model
call on the formatted prompt. -/
def enhanced_try_body (searchStep : Except String (List SearchResult))
    (llm : String → Except String String)
    (jsonLoads : String → Except String PyVal) (question : String) :
    Except String EnhancedAssessment := do
  let search_results ← searchStep
  if search_results = [] then
    .ok (create_fallback_enhanced_assessment question)
  else do
    let enhanced_prompt := create_enhanced_prompt question search_results
    let response ← llm enhanced_prompt
    .ok (parse_enhanced_response jsonLoads response search_results)

/-- `EnhancedFeasibilityAnalyzer.assess_feasibility_enhanced`: the
outer `except` catches anything the try block raised and answers with
the fallback assessment carrying the error text. -/
def assess_feasibility_enhanced (searchStep : Except String (List SearchResult))
    (llm : String → Except String String)
    (jsonLoads : String → Except String PyVal) (question : String) :
    EnhancedAssessment :=
  match enhanced_try_body searchStep llm jsonLoads question with
  | .ok a => a
  | .error e => create_fallback_enhanced_assessment question e

/-- First exception raised anywhere in the enhanced pipeline (search,
model invocation, or response parsing), if any. Mirrors the control
flow of `assess_feasibility_enhanced` step by step. -/
def enhanced_pipeline_error (searchStep : Except String (List SearchResult))
    (llm : String → Except String String)
    (jsonLoads : String → Except String PyVal) (question : String) :
    Option String :=
  match searchStep with
  | .error e => some e
  | .ok search_results =>
    if search_results = [] then none
    else
      match llm (create_enhanced_prompt question search_results) with
      | .error e => some e
      | .ok response =>
        match parse_enhanced_core jsonLoads response search_results with
        | .error e => some e
        | .ok _ => none

/-- The `collection_mapping` dict inside
`EnhancedFeasibilityAnalyzer.add_integration_documents`. -/
def integration_collection_mapping : List (String × String) :=
  [("api", "api_specifications"),
   ("integration", "integration_guides"),
   ("tutorial", "tutorials_examples"),
   ("glossary", "glossary_concepts"),
   ("use_case", "use_cases_patterns")]

/-- `collection_mapping.get(doc_type, "integration_guides")`: a
non-string document type misses every string key. -/
def collection_for_type (doc_type : PyVal) : String :=
  match doc_type with
  | .pstr s => (integration_collection_mapping.lookup s).getD "integration_guides"
  | _ => "integration_guides"

/-- Loop body of
`EnhancedFeasibilityAnalyzer.add_integration_documents`: pick the
target collection from the document's `type`, then build the
`Document` whose `source_type` metadata is hard-coded to the
integration-guide tag. `now` is `datetime.now().isoformat()`. -/
def route_document (now : String) (doc_data : PyVal) :
    Except String (String × LCDocument) := do
  let doc_type ← pyGetD doc_data "type" (.pstr "integration_guide")
  let collection_name := collection_for_type doc_type
  let content ← pyGetItem doc_data "content"
  let page_content ← match content with
    | .pstr s => Except.ok s
    | _ => Except.error "ValidationError: page_content must be a string"
  let title ← pyGetD doc_data "title" (.pstr "Untitled")
  let complexity ← pyGetD doc_data "complexity" (.pstr "medium")
  let integration_level ← pyGetD doc_data "integration_level" (.pstr "application")
  .ok (collection_name, ⟨page_content, pdict [
    ("source_type", .pstr ContentType.integration_guide.value),
    ("title", title),
    ("complexity", complexity),
    ("integration_level", integration_level),
    ("added_date", .pstr now)]⟩)

/-- `EnhancedFeasibilityAnalyzer.add_integration_documents`: route each
document in order (there is no `try` here, so a failing document aborts
the call). The result pairs each stored document with the collection it
was added to. -/
def add_integration_documents (now : String) (documents : List PyVal) :
    Except String (List (String × LCDocument)) :=
  documents.mapM (route_document now)

/-! API documentation processor
(`src/components/api_docs_processor.py`, class `APIDocsProcessor`).
The specification download is external; the parsed YAML document is a
`PyVal` parameter. `json.dump(…, default=str)` followed by `json.load`
is modelled by `jsonRoundTrip`: JSON serialisation coerces non-string
dictionary keys (such as YAML's bare integer response codes) to their
decimal string form, and every other value in our domain re-parses to
itself. -/

/-- Key coercion performed by `json.dump`: integer keys become their
decimal strings. -/
def coerceKey : PyKey → PyKey
  | .kstr s => .kstr s
  | .kint n => .kstr (intToStr n)

mutual
/-- Writing a value with `json.dump` and re-reading it with
`json.load`: identity except for dictionary-key coercion. -/
def jsonRoundTrip : PyVal → PyVal
  | .pstr s => .pstr s
  | .pint n => .pint n
  | .pfloat q => .pfloat q
  | .pbool b => .pbool b
  | .pnull => .pnull
  | .parr xs => .parr (jsonRoundTripList xs)
  | .pobj kvs => .pobj (jsonRoundTripObj kvs)
/-- `jsonRoundTrip` on list elements. -/
def jsonRoundTripList : PyList → PyList
  | .nil => .nil
  | .cons x xs => .cons (jsonRoundTrip x) (jsonRoundTripList xs)
/-- `jsonRoundTrip` on dictionary entries. -/
def jsonRoundTripObj : PyObj → PyObj
  | .nil => .nil
  | .cons k v kvs => .cons (coerceKey k) (jsonRoundTrip v) (jsonRoundTripObj kvs)
end

mutual
/-- Every dictionary key (recursively) is a string. -/
def allStrKeys : PyVal → Bool
  | .pstr _ => true
  | .pint _ => true
  | .pfloat _ => true
  | .pbool _ => true
  | .pnull => true
  | .parr xs => allStrKeysList xs
  | .pobj kvs => allStrKeysObj kvs
/-- `allStrKeys` on list elements. -/
def allStrKeysList : PyList → Bool
  | .nil => true
  | .cons x xs => allStrKeys x && allStrKeysList xs
/-- `allStrKeys` on dictionary entries. -/
def allStrKeysObj : PyObj → Bool
  | .nil => true
  | .cons k v kvs =>
    (match k with | .kstr _ => true | .kint _ => false)
      && allStrKeys v && allStrKeysObj kvs
end

/-- A dictionary key used as a value (`'path': path` stores the raw
key object). -/
def keyToVal : PyKey → PyVal
  | .kstr s => .pstr s
  | .kint n => .pint n

/-- Python `needle in path` where `path` is a raw dictionary key:
substring test on strings, `TypeError` on integer keys. -/
def pyKeyContains (k : PyKey) (needle : String) : Except String Bool :=
  match k with
  | .kstr s => .ok (strContains s needle)
  | .kint _ => .error "TypeError: argument of type int is not iterable"

/-- `APIDocsProcessor._extract_parameters`. -/
def extract_parameters (method_info : PyVal) : Except String PyVal := do
  let params ← pyGetD method_info "parameters" (plist [])
  let items ← pyIter params
  let out ← items.mapM (fun param => do
    let name ← pyGetD param "name" (.pstr "")
    let inLoc ← pyGetD param "in" (.pstr "")
    let required ← pyGetD param "required" (.pbool false)
    let description ← pyGetD param "description" (.pstr "")
    let schema ← pyGetD param "schema" (pdict [])
    let exampleVal ← pyGetD param "example" (.pstr "")
    Except.ok (pdict [("name", name), ("in", inLoc), ("required", required),
      ("description", description), ("schema", schema), ("example", exampleVal)]))
  .ok (plist out)

/-- `APIDocsProcessor._extract_request_body`. -/
def extract_request_body (method_info : PyVal) : Except String PyVal := do
  let request_body ← pyGetD method_info "requestBody" .pnull
  if ¬ pyTruthy request_body then .ok .pnull
  else do
    let description ← pyGetD request_body "description" (.pstr "")
    let required ← pyGetD request_body "required" (.pbool false)
    let content ← pyGetD request_body "content" (pdict [])
    .ok (pdict [("description", description), ("required", required), ("content", content)])

/-- `APIDocsProcessor._extract_responses`: the raw `responses` mapping
from the specification (integer YAML keys and all). -/
def extract_responses (method_info : PyVal) : Except String PyVal :=
  pyGetD method_info "responses" (pdict [])

/-- Lazy `any(needle in tag.lower() for tag in tags)`: raises on the
first non-string tag it reaches. -/
def anyTagContains (needle : String) : List PyVal → Except String Bool
  | [] => .ok false
  | t :: ts => do
    let s ← pyStrLower t
    if strContains s needle then .ok true else anyTagContains needle ts

/-- `APIDocsProcessor._categorize_endpoint`: fixed rule list on tags
and path substrings. -/
def categorize_endpoint (path : PyKey) (method_info : PyVal) : Except String String := do
  let tags ← pyGetD method_info "tags" (plist [])
  let tagList ← pyIter tags
  let isAccount ← anyTagContains "account" tagList
  if isAccount then .ok "authentication_setup"
  else do
    let isUser ← anyTagContains "user" tagList
    if isUser then .ok "user_management"
    else do
      let isTemplate ← anyTagContains "template" tagList
      if isTemplate then .ok "template_management"
      else do
        let isContact ← anyTagContains "contact" tagList
        if isContact then .ok "contact_management"
        else do
          let isContract ← anyTagContains "contract" tagList
          if isContract then do
            let hasParties ← pyKeyContains path "parties"
            let hasParticipants ←
              if hasParties then pure true else pyKeyContains path "participants"
            if hasParticipants then .ok "contract_parties"
            else do
              let hasFiles ← pyKeyContains path "files"
              if hasFiles then .ok "file_management"
              else do
                let hasPublish ← pyKeyContains path "publish"
                if hasPublish then .ok "contract_publishing"
                else .ok "contract_management"
          else do
            let isWebhook ← anyTagContains "webhook" tagList
            if isWebhook then .ok "integration_automation"
            else .ok "general"

/-- `APIDocsProcessor._identify_prerequisites` (fixed path-substring
rules; `method` is the raw lowercase-or-not key from the spec). -/
def identify_prerequisites (path : PyKey) (method : String) : Except String (List String) := do
  let isCreate ← pyKeyContains path "/contracts/create"
  let pre1 := if isCreate then ["GET /templates", "GET /accounts/me"] else []
  let isParties ← pyKeyContains path "/parties"
  let pre2 := if isParties ∧ method = "POST" then ["POST /contracts/create"] else []
  let isParticipants ← pyKeyContains path "/participants"
  let pre3 := if isParticipants ∧ method = "POST"
    then ["POST /contracts/create", "POST /contracts/{id}/parties"] else []
  .ok (pre1 ++ pre2 ++ pre3)

/-- `APIDocsProcessor._identify_follow_ups`. -/
def identify_follow_ups (path : PyKey) (method : String) : Except String (List String) := do
  let isCreate ← pyKeyContains path "/contracts/create"
  let f1 := if isCreate
    then ["POST /contracts/{id}/parties", "POST /contracts/{id}/files", "POST /contracts/{id}/publish"]
    else []
  let isParties ← pyKeyContains path "/parties"
  let f2 := if isParties ∧ method = "POST"
    then ["POST /contracts/{id}/parties/{party_id}/participants", "POST /contracts/{id}/publish"]
    else []
  .ok (f1 ++ f2)

/-- `APIDocsProcessor._extract_endpoints`: flatten the specification's
`paths` mapping into a dict keyed `"METHOD path"`, one record per path
and HTTP method. -/
def extract_endpoints (api_spec : PyVal) : Except String PyVal := do
  let paths ← pyGetD api_spec "paths" (pdict [])
  let pathItems ← pyItems paths
  let endpoints ← pathItems.foldlM (fun (acc : PyObj) pathEntry => do
    let methodItems ← pyItems pathEntry.2
    methodItems.foldlM (fun (acc2 : PyObj) methodEntry => do
      match methodEntry.1 with
      | .kint _ => Except.error "AttributeError: int object has no attribute upper"
      | .kstr m =>
        if strUpper m ∈ ["GET", "POST", "PUT", "DELETE", "PATCH"] then do
          let endpoint_key := strUpper m ++ " " ++ pathEntry.1.toStr
          let summary ← pyGetD methodEntry.2 "summary" (.pstr "")
          let description ← pyGetD methodEntry.2 "description" (.pstr "")
          let operationId ← pyGetD methodEntry.2 "operationId" (.pstr "")
          let tags ← pyGetD methodEntry.2 "tags" (plist [])
          let parameters ← extract_parameters methodEntry.2
          let request_body ← extract_request_body methodEntry.2
          let responses ← extract_responses methodEntry.2
          let workflow_category ← categorize_endpoint pathEntry.1 methodEntry.2
          let prerequisites ← identify_prerequisites pathEntry.1 m
          let follow_ups ← identify_follow_ups pathEntry.1 m
          Except.ok (acc2.insert (.kstr endpoint_key) (pdict [
            ("path", keyToVal pathEntry.1),
            ("method", .pstr (strUpper m)),
            ("summary", summary),
            ("description", description),
            ("operationId", operationId),
            ("tags", tags),
            ("parameters", parameters),
            ("request_body", request_body),
            ("responses", responses),
            ("workflow_category", .pstr workflow_category),
            ("prerequisites", pstrs prerequisites),
            ("follow_ups", pstrs follow_ups)]))
        else Except.ok acc2) acc) PyObj.nil
  .ok (.pobj endpoints)

/-- `APIDocsProcessor._define_workflows`: the static workflow table. -/
def define_workflows : PyVal := pdict [
  ("basic_contract_creation", pdict [
    ("name", .pstr "Basic Contract Creation"),
    ("description", .pstr "Create a simple contract from template"),
    ("steps", pstrs [
      "GET /accounts/me - Verify account access",
      "GET /templates - Find available templates",
      "POST /contracts/create - Create contract from template",
      "POST /contracts/{id}/parties - Add contract parties",
      "POST /contracts/{id}/publish - Publish for signing"]),
    ("endpoints_sequence", pstrs [
      "GET /accounts/me", "GET /templates", "POST /contracts/create",
      "POST /contracts/{id}/parties", "POST /contracts/{id}/publish"])]),
  ("contact_management", pdict [
    ("name", .pstr "Contact Management"),
    ("description", .pstr "Manage contacts for contract parties"),
    ("steps", pstrs [
      "GET /contacts - List existing contacts",
      "POST /contacts - Create new contact",
      "GET /contacts/{id} - Retrieve contact details"]),
    ("endpoints_sequence", pstrs ["GET /contacts", "POST /contacts"])]),
  ("webhook_integration", pdict [
    ("name", .pstr "Webhook Integration"),
    ("description", .pstr "Setup real-time notifications"),
    ("steps", pstrs [
      "POST /webhooks - Create webhook endpoint",
      "GET /webhooks - List configured webhooks",
      "GET /contracts/{id}/events - Monitor contract events"]),
    ("endpoints_sequence", pstrs ["POST /webhooks", "GET /webhooks"])])]

/-- `APIDocsProcessor._extract_schemas`. -/
def extract_schemas (api_spec : PyVal) : Except String PyVal := do
  let components ← pyGetD api_spec "components" (pdict [])
  pyGetD components "schemas" (pdict [])

/-- `APIDocsProcessor._get_fallback_knowledge_base` (`ts` is
`datetime.now().isoformat()`). -/
def get_fallback_knowledge_base (ts : String) : PyVal := pdict [
  ("metadata", pdict [
    ("created_at", .pstr ts),
    ("api_version", .pstr "fallback"),
    ("title", .pstr "OneFlow API (Fallback)")]),
  ("endpoints", pdict [
    ("GET /accounts/me", pdict [
      ("path", .pstr "/accounts/me"),
      ("method", .pstr "GET"),
      ("summary", .pstr "Get account information"),
      ("workflow_category", .pstr "authentication_setup")])]),
  ("workflows", define_workflows),
  ("schemas", pdict [])]

/-- The `try` block of `APIDocsProcessor._create_knowledge_base`:
process the (already fetched and YAML-parsed) specification into the
knowledge-base dictionary. -/
def create_knowledge_base_try (api_spec : PyVal) (ts : String) : Except String PyVal := do
  if ¬ pyTruthy api_spec then .ok (get_fallback_knowledge_base ts)
  else do
    let info ← pyGetD api_spec "info" (pdict [])
    let api_version ← pyGetD info "version" (.pstr "unknown")
    let title ← pyGetD info "title" (.pstr "OneFlow API")
    let endpoints ← extract_endpoints api_spec
    let schemas ← extract_schemas api_spec
    .ok (pdict [
      ("metadata", pdict [
        ("created_at", .pstr ts), ("api_version", api_version), ("title", title)]),
      ("endpoints", endpoints),
      ("workflows", define_workflows),
      ("schemas", schemas)])

/-- `APIDocsProcessor._create_knowledge_base`: any processing exception
is caught and answered with the fallback knowledge base. (The write of
the result to the cache file with `json.dump(…, default=str)` is what
`jsonRoundTrip` models on reload.) -/
def create_knowledge_base (api_spec : PyVal) (ts : String) : PyVal :=
  match create_knowledge_base_try api_spec ts with
  | .ok kb => kb
  | .error _ => get_fallback_knowledge_base ts

/-- State of the knowledge-base cache file: its text contents and its
age in hours (`none` when the file does not exist). -/
structure CacheFileState where
  contents : String
  ageHours : Rat
deriving DecidableEq

/-- `APIDocsProcessor._should_refresh_cache`: refresh when the cache
file is missing or older than the configured interval. -/
def should_refresh_cache (cache_refresh_hours : Rat) (kbFile : Option CacheFileState) : Bool :=
  match kbFile with
  | none => true
  | some f => f.ageHours > cache_refresh_hours

/-- `APIDocsProcessor._load_or_create_knowledge_base`. `jsonLoad`
models `json.load` on the file contents; `create` models
`self._create_knowledge_base()` (whose network fetch is external),
returning the new knowledge base and the resulting cache-file state.
On an unparsable cache the file is deleted (`os.remove`) before
regenerating. -/
def load_or_create_knowledge_base (jsonLoad : String → Except String PyVal)
    (create : Option CacheFileState → PyVal × Option CacheFileState)
    (cache_refresh_hours : Rat) (kbFile : Option CacheFileState) :
    PyVal × Option CacheFileState :=
  if should_refresh_cache cache_refresh_hours kbFile then create kbFile
  else
    match kbFile with
    | some f =>
      match jsonLoad f.contents with
      | .ok data => (data, kbFile)
      | .error _ => create none
    | none => create none

/-- `EnhancedFeasibilityAnalyzer._assess_endpoint_complexity`. -/
def assess_endpoint_complexity (method_data : PyVal) : Except String String := do
  let params ← pyGetD method_data "parameters" (plist [])
  let param_count ← pyLen params
  let items ← pyIter params
  let reqFlags ← items.mapM (fun p => pyGetD p "required" (.pbool false))
  let required_params := (reqFlags.filter pyTruthy).length
  let hasBody ← pyContainsKey method_data "requestBody"
  let complexity_score := min param_count 5 + required_params + (if hasBody then 2 else 0)
  .ok (if complexity_score ≤ 3 then "low"
    else if complexity_score ≤ 7 then "medium" else "high")

/-- `EnhancedFeasibilityAnalyzer._format_api_endpoint_content`: builds
the searchable text for one endpoint/method pair. `data.get(…)` raises
`AttributeError` when `data` is not a dict (e.g. when it is a string
field of a flat endpoint record). -/
def format_api_endpoint_content (path : PyKey) (method : PyKey) (data : PyVal) :
    Except String String := do
  let methodUpper ← pyKeyUpper method
  let summary ← pyGetD data "summary" (.pstr "No summary available")
  let description ← pyGetD data "description" (.pstr "No description available")
  let head := ["API Endpoint: " ++ methodUpper ++ " " ++ path.toStr,
    "Summary: " ++ pyStr summary, "Description: " ++ pyStr description]
  let hasParams ← pyContainsKey data "parameters"
  let paramLines ←
    if hasParams then do
      let ps ← pyGetItem data "parameters"
      let items ← pyIter ps
      let lines ← items.mapM (fun param => do
        let name ← pyGetD param "name" (.pstr "unknown")
        let inLoc ← pyGetD param "in" (.pstr "unknown")
        let description ← pyGetD param "description" (.pstr "No description")
        let required ← pyGetD param "required" (.pbool false)
        Except.ok ("- " ++ pyStr name ++ " (" ++ pyStr inLoc ++ "): " ++ pyStr description
          ++ (if pyTruthy required then " [Required]" else "")))
      Except.ok ("Parameters:" :: lines)
    else Except.ok []
  let hasResponses ← pyContainsKey data "responses"
  let responseLines ←
    if hasResponses then do
      let rs ← pyGetItem data "responses"
      let items ← pyItems rs
      let lines ← items.mapM (fun entry => do
        let description ← pyGetD entry.2 "description" (.pstr "No description")
        Except.ok ("- " ++ entry.1.toStr ++ ": " ++ pyStr description))
      Except.ok ("Responses:" :: lines)
    else Except.ok []
  .ok (String.intercalate "\n" (head ++ paramLines ++ responseLines))

/-- The `try` block of
`EnhancedFeasibilityAnalyzer._process_existing_api_docs`: iterate the
knowledge base's endpoints mapping, then iterate each record's entries
as if they were per-method sub-records, building one document per
inner entry. -/
def process_existing_api_docs_try (kb : PyVal) : Except String (List LCDocument) := do
  if ¬ pyTruthy kb then .ok []
  else do
    let hasEndpoints ← pyContainsKey kb "endpoints"
    if ¬ hasEndpoints then .ok []
    else do
      let endpoints ← pyGetItem kb "endpoints"
      let epItems ← pyItems endpoints
      let docLists ← epItems.mapM (fun ep => do
        let methodItems ← pyItems ep.2
        methodItems.mapM (fun mi => do
          let content ← format_api_endpoint_content ep.1 mi.1 mi.2
          let methodUpper ← pyKeyUpper mi.1
          let operation_id ← pyGetD mi.2 "operationId" (.pstr "")
          let summary ← pyGetD mi.2 "summary" (.pstr "")
          let complexity ← assess_endpoint_complexity mi.2
          Except.ok (⟨content, pdict [
            ("source_type", .pstr ContentType.api_spec.value),
            ("endpoint", keyToVal ep.1),
            ("method", .pstr methodUpper),
            ("operation_id", operation_id),
            ("summary", summary),
            ("complexity", .pstr complexity)]⟩ : LCDocument)))
      .ok docLists.flatten

/-- `EnhancedFeasibilityAnalyzer._process_existing_api_docs`: its
`except` discards everything and returns the empty list on any
exception. -/
def process_existing_api_docs (kb : PyVal) : List LCDocument :=
  match process_existing_api_docs_try kb with
  | .ok docs => docs
  | .error _ => []

/-! Offline document loader (`src/load_integration_docs.py`). File
reading is external: each folder entry is given as a
`(filename, loaded text)` pair. -/

/-- `determine_doc_type`: heuristic type tag from filename and content
keywords. -/
def determine_doc_type (filename content : String) : String :=
  let filename_lower := strLower filename
  let content_lower := strLower content
  if ["api", "endpoint", "reference"].any (fun w => strContains filename_lower w) then "api"
  else if ["tutorial", "guide", "howto", "step"].any (fun w => strContains filename_lower w) then "tutorial"
  else if ["glossary", "definition", "terms"].any (fun w => strContains filename_lower w) then "glossary"
  else if ["usecase", "use_case", "scenario", "example"].any (fun w => strContains filename_lower w) then "use_case"
  else if ["endpoint", "api call", "http", "rest"].any (fun w => strContains content_lower w) then "api"
  else if ["step 1", "first step", "tutorial", "how to"].any (fun w => strContains content_lower w) then "tutorial"
  else if ["definition:", "means:", "refers to"].any (fun w => strContains content_lower w) then "glossary"
  else if ["use case", "scenario", "example"].any (fun w => strContains content_lower w) then "use_case"
  else "integration"

/-- `assess_complexity`: length-based complexity adjusted by technical
keyword count. -/
def assess_complexity (content : String) : String :=
  let length := content.data.length
  let content_lower := strLower content
  let base_complexity :=
    if length < 800 then "low" else if length < 3000 then "medium" else "high"
  let technical_count :=
    (["api", "endpoint", "json", "webhook", "authentication", "oauth"].filter
      (fun w => strContains content_lower w)).length
  if technical_count ≥ 5 then "high"
  else if technical_count ≥ 2 ∧ base_complexity = "low" then "medium"
  else base_complexity

/-- `determine_integration_level`. -/
def determine_integration_level (content : String) : String :=
  let content_lower := strLower content
  if ["partner", "marketplace", "generic"].any (fun w => strContains content_lower w) then "partner"
  else if ["application", "crm", "system integration"].any (fun w => strContains content_lower w) then "application"
  else "standard"

/-- Python `s.endswith('.txt', '.md')`: the second positional argument
of `str.endswith` is the slice start and must be an integer, so passing
the string `'.md'` raises `TypeError` unconditionally. -/
def pyEndswithStrStart (s suffix start : String) : Except String Bool :=
  let _ := (s, suffix, start)
  .error "TypeError: slice indices must be integers or None or have an __index__ method"

/-- Python `os.path.splitext(filename)[0]`: the name without its last
extension. -/
def splitextRoot (filename : String) : String :=
  match strRFindChar filename '.' with
  | some i => strSlice filename 0 i
  | none => filename

/-- The per-file `try` body of `load_documents_from_folder`: dispatch
on the extension (the first test is the buggy two-string `endswith`
call, which raises before any branch can be taken), skip short files,
and build the tagged document dict. `content` is the text the relevant
loader would produce for this file. -/
def load_one_document (filename content : String) : Except String (Option PyVal) := do
  let isTxtOrMd ← pyEndswithStrStart (strLower filename) ".txt" ".md"
  let loaded ←
    if isTxtOrMd then Except.ok content
    else if strEndsWith (strLower filename) ".docx" then Except.ok content
    else if strEndsWith (strLower filename) ".doc" then
      Except.ok ("[Document content from " ++ filename
        ++ " - please convert to .txt or .docx format]")
    else Except.ok ""
  if isTxtOrMd ∨ strEndsWith (strLower filename) ".docx"
      ∨ strEndsWith (strLower filename) ".doc" then
    if loaded = "" ∨ (strStrip loaded).data.length < 10 then .ok none
    else
      let title := strTitle (strReplaceChar (strReplaceChar (splitextRoot filename) '_' ' ') '-' ' ')
      .ok (some (pdict [
        ("content", .pstr (strStrip loaded)),
        ("title", .pstr title),
        ("type", .pstr (determine_doc_type filename loaded)),
        ("complexity", .pstr (assess_complexity loaded)),
        ("integration_level", .pstr (determine_integration_level loaded)),
        ("filename", .pstr filename),
        ("file_size", .pint loaded.data.length)]))
  else .ok none

/-- `load_documents_from_folder`: filter the folder listing by the
supported extensions, then process each file; a per-file exception is
caught, logged and the file skipped. -/
def load_documents_from_folder (files : List (String × String)) : List PyVal :=
  let supported_extensions := [".txt", ".docx", ".doc", ".md"]
  let matching := files.filter (fun f =>
    supported_extensions.any (fun ext => strEndsWith (strLower f.1) ext))
  if matching = [] then []
  else
    matching.foldl (fun documents f =>
      match load_one_document f.1 f.2 with
      | .ok (some d) => documents ++ [d]
      | .ok none => documents
      | .error _ => documents) []

/-! Concrete inputs and shape predicates used by the claim theorems. -/

/-- Python `x in l` for a list value. -/
def PyList.containsVal (x : PyVal) : PyList → Bool
  | .nil => false
  | .cons h t => h == x || PyList.containsVal x t

/-- Python `x in v` when `v` is expected to be a list. -/
def pyInList (x v : PyVal) : Bool :=
  match v with
  | .parr xs => xs.containsVal x
  | _ => false

/-- The scenario question from the specification. -/
def pdf_template_question : String :=
  "Can we create a contract from a template and add a PDF to it?"

/-- The knowledge base's `endpoints` mapping is in the flat format of
`_extract_endpoints`: every value is a record whose first field is
`path` holding a non-dict (string, or the raw integer key) value. -/
def flat_endpoint_records : PyObj → Bool
  | .nil => true
  | .cons _ v rest =>
    (match v with
     | .pobj (.cons (.kstr "path") pv _) =>
       (match pv with | .pobj _ => false | _ => true)
     | _ => false) && flat_endpoint_records rest

/-- A minimal OpenAPI document whose one response mapping uses the bare
YAML integer key `200` (as `yaml.safe_load` produces for an unquoted
`200:` response code). -/
def spec_with_int_response_code : PyVal :=
  .pobj (PyObj.ofList [
    (.kstr "info", pdict [("version", .pstr "1.0"), ("title", .pstr "OneFlow API")]),
    (.kstr "paths", .pobj (PyObj.ofList [
      (.kstr "/contracts", .pobj (PyObj.ofList [
        (.kstr "post", .pobj (PyObj.ofList [
          (.kstr "summary", .pstr "Create a contract"),
          (.kstr "responses", .pobj (PyObj.ofList [
            (.kint 200, pdict [("description", .pstr "OK")])]))]))]))]))])

/-- The same document with the response code spelled as the string
`"200"` (all mapping keys strings). -/
def spec_with_str_response_code : PyVal :=
  .pobj (PyObj.ofList [
    (.kstr "info", pdict [("version", .pstr "1.0"), ("title", .pstr "OneFlow API")]),
    (.kstr "paths", .pobj (PyObj.ofList [
      (.kstr "/contracts", .pobj (PyObj.ofList [
        (.kstr "post", .pobj (PyObj.ofList [
          (.kstr "summary", .pstr "Create a contract"),
          (.kstr "responses", .pobj (PyObj.ofList [
            (.kstr "200", pdict [("description", .pstr "OK")])]))]))]))]))])

/-- Field access on an assessment dictionary (used by the theorem
statements): `none` when the key is absent or the value is not a
dict. -/
def pyDictLookup (v : PyVal) (k : String) : Option PyVal :=
  match v with
  | .pobj kvs => kvs.lookupStr k
  | _ => none

/-! Theorems. -/

/-- Results surviving `dedup_by_hash` have hashes outside `seen` and
pairwise distinct hashes. -/
theorem dedup_by_hash_spec (md5hex : String → String) :
    ∀ (l : List SearchResult) (seen : List String),
      (∀ r ∈ dedup_by_hash md5hex l seen, seen.contains (md5hex r.content) = false)
      ∧ List.Pairwise (fun a b => md5hex a.content ≠ md5hex b.content)
          (dedup_by_hash md5hex l seen) := by
  intro l
  induction l with
  | nil => intro seen; simp [dedup_by_hash]
  | cons r rs ih =>
    intro seen
    rw [dedup_by_hash]
    by_cases hmem : seen.contains (md5hex r.content) = true
    · rw [if_pos hmem]; exact ih seen
    · rw [if_neg hmem]
      have ih' := ih (md5hex r.content :: seen)
      refine ⟨?_, ?_⟩
      · intro x hx
        rcases List.mem_cons.mp hx with rfl | hx'
        · exact Bool.eq_false_iff.mpr hmem
        · have h2 := ih'.1 x hx'
          simp only [List.contains_cons, Bool.or_eq_false_iff] at h2
          exact h2.2
      · refine List.Pairwise.cons ?_ ih'.2
        intro b hb
        have h2 := ih'.1 b hb
        simp only [List.contains_cons, Bool.or_eq_false_iff, beq_eq_false_iff_ne] at h2
        exact fun h => h2.1 h.symm

/-- The diversity pass keeps a sublist of its input. -/
theorem diversity_filter_sublist :
    ∀ (l : List SearchResult) (counts : ContentType → Nat),
      (diversity_filter l counts).Sublist l := by
  intro l
  induction l with
  | nil => intro counts; simp [diversity_filter]
  | cons r rs ih =>
    intro counts
    rw [diversity_filter]
    split
    · exact List.Sublist.cons₂ r (ih _)
    · exact List.Sublist.cons r (ih _)

/-- The diversity pass never exceeds three results per source type,
counting the budget already consumed. -/
theorem diversity_filter_count (st : ContentType) :
    ∀ (l : List SearchResult) (counts : ContentType → Nat),
      (diversity_filter l counts).countP (fun r => r.source_type == st)
        ≤ 3 - counts st := by
  intro l
  induction l with
  | nil => intro counts; simp [diversity_filter]
  | cons r rs ih =>
    intro counts
    rw [diversity_filter]
    split
    · rename_i hlt
      rw [List.countP_cons]
      have hrec := ih (fun s => if s = r.source_type then counts s + 1 else counts s)
      by_cases hst : r.source_type = st
      · subst hst
        simp only [eq_self_iff_true, if_true] at hrec
        simp only [beq_self_eq_true, if_true]
        omega
      · rw [if_neg (fun h => hst h.symm)] at hrec
        have hne : (r.source_type == st) = false := beq_eq_false_iff_ne.mpr hst
        simpa [hne] using hrec
    · exact ih counts

/-- C1 (confirmed): for every question — that is, for all primary and
cross-collection result lists and any content-hash function — the
merged list produced by `_merge_and_rank_results` contains no two
entries with identical content hashes, and no source-type tag occurs
more than three times in it. -/
theorem merged_results_unique_hashes_and_diverse (md5hex : String → String)
    (primary context : List SearchResult) :
    List.Pairwise (fun a b => md5hex a.content ≠ md5hex b.content)
      (merge_and_rank_results md5hex primary context)
    ∧ ∀ st : ContentType,
        (merge_and_rank_results md5hex primary context).countP
          (fun r => r.source_type == st) ≤ 3 := by
  unfold merge_and_rank_results
  constructor
  · exact List.Pairwise.sublist (diversity_filter_sublist _ _)
      (dedup_by_hash_spec md5hex _ []).2
  · intro st
    simpa using diversity_filter_count st _ (fun _ => 0)

/-- C2 (confirmed): whenever any step of the enhanced pipeline —
search, model invocation, or response parsing — raises, the assessment
returned by `assess_feasibility_enhanced` has feasibility
`NEEDS_ANALYSIS`, confidence `0.3`, and an explanation embedding the
error text; the exception is never propagated (the function is total
and returns an assessment). -/
theorem enhanced_failure_yields_needs_analysis
    (searchStep : Except String (List SearchResult))
    (llm : String → Except String String)
    (jsonLoads : String → Except String PyVal)
    (question e : String)
    (hfail : enhanced_pipeline_error searchStep llm jsonLoads question = some e) :
    (assess_feasibility_enhanced searchStep llm jsonLoads question).feasibility
        = .pstr "NEEDS_ANALYSIS"
    ∧ (assess_feasibility_enhanced searchStep llm jsonLoads question).confidence
        = .pfloat (3/10)
    ∧ ∃ p, (assess_feasibility_enhanced searchStep llm jsonLoads question).explanation
        = .pstr (p ++ e) := by
  cases hs : searchStep with
  | error e' =>
    rw [hs] at hfail
    simp only [enhanced_pipeline_error, Option.some.injEq] at hfail
    subst hfail
    have hres : assess_feasibility_enhanced (Except.error e') llm jsonLoads question
        = create_fallback_enhanced_assessment question e' := rfl
    rw [hres]
    exact ⟨rfl, rfl, _, rfl⟩
  | ok rs =>
    rw [hs] at hfail
    have hfail' : (if rs = [] then none
        else match llm (create_enhanced_prompt question rs) with
          | .error e0 => some e0
          | .ok response =>
            match parse_enhanced_core jsonLoads response rs with
            | .error e0 => some e0
            | .ok _ => none) = some e := hfail
    by_cases hempty : rs = []
    · rw [if_pos hempty] at hfail'; simp at hfail'
    · rw [if_neg hempty] at hfail'
      cases hllm : llm (create_enhanced_prompt question rs) with
      | error e' =>
        rw [hllm] at hfail'
        have he : e' = e := by simpa using hfail'
        subst he
        have hres : assess_feasibility_enhanced (Except.ok rs) llm jsonLoads question
            = create_fallback_enhanced_assessment question e' := by
          unfold assess_feasibility_enhanced enhanced_try_body
          simp only [Bind.bind, Except.bind, if_neg hempty, hllm]
        rw [hres]
        exact ⟨rfl, rfl, _, rfl⟩
      | ok response =>
        rw [hllm] at hfail'
        have hfail'' : (match parse_enhanced_core jsonLoads response rs with
            | .error e0 => some e0
            | .ok _ => none) = some e := hfail'
        cases hparse : parse_enhanced_core jsonLoads response rs with
        | error e' =>
          rw [hparse] at hfail''
          have he : e' = e := by simpa using hfail''
          subst he
          have hres : assess_feasibility_enhanced (Except.ok rs) llm jsonLoads question
              = create_fallback_enhanced_assessment "" e' := by
            unfold assess_feasibility_enhanced enhanced_try_body
            simp only [Bind.bind, Except.bind, if_neg hempty, hllm,
              parse_enhanced_response, hparse]
          rw [hres]
          exact ⟨rfl, rfl, _, rfl⟩
        | ok a => rw [hparse] at hfail''; simp at hfail''

/-- Witness for C2: a concrete run whose search step raises. -/
theorem enhanced_failure_yields_needs_analysis_witness :
    enhanced_pipeline_error (Except.error "connection refused")
        (fun _ => Except.error "model unavailable")
        (fun _ => Except.error "parse unavailable")
        "Can we sync contracts to our CRM?" = some "connection refused"
    ∧ ((assess_feasibility_enhanced (Except.error "connection refused")
          (fun _ => Except.error "model unavailable")
          (fun _ => Except.error "parse unavailable")
          "Can we sync contracts to our CRM?").feasibility = .pstr "NEEDS_ANALYSIS"
      ∧ (assess_feasibility_enhanced (Except.error "connection refused")
          (fun _ => Except.error "model unavailable")
          (fun _ => Except.error "parse unavailable")
          "Can we sync contracts to our CRM?").confidence = .pfloat (3/10)
      ∧ ∃ p, (assess_feasibility_enhanced (Except.error "connection refused")
          (fun _ => Except.error "model unavailable")
          (fun _ => Except.error "parse unavailable")
          "Can we sync contracts to our CRM?").explanation = .pstr (p ++ "connection refused")) :=
  ⟨rfl, enhanced_failure_yields_needs_analysis _ _ _ _ _ rfl⟩

/-- C3 counterexample: on the question `"Can we create a contract from
a template and add a PDF to it?"` with the model unavailable, the
fallback assessment does NOT have confidence `"Medium"` with
`"file_management"` among `capabilities_used` — the question contains
the word `"create"`, so the first (contract/template) keyword tier
fires before the pdf/file tier is ever tested. -/
theorem fallback_pdf_question_counterexample :
    ¬ (pyDictLookup (assess_feasibility (Except.error "OpenAI unavailable")
          (fun _ => Except.error "unused") pdf_template_question) "feasibility"
            = some (.pstr "Yes")
      ∧ pyDictLookup (assess_feasibility (Except.error "OpenAI unavailable")
          (fun _ => Except.error "unused") pdf_template_question) "confidence"
            = some (.pstr "Medium")
      ∧ pyInList (.pstr "file_management")
          ((pyDictLookup (assess_feasibility (Except.error "OpenAI unavailable")
            (fun _ => Except.error "unused") pdf_template_question)
            "capabilities_used").getD .pnull) = true) := by
  decide

/-- C3 (corrected): on that question with no model access, the fallback
assessment has feasibility `"Yes"`, confidence `"High"`, and
`capabilities_used = ["contract_creation", "template_management"]`;
`"file_management"` appears only under `related_features`. -/
theorem fallback_pdf_question_assessment :
    pyDictLookup (assess_feasibility (Except.error "OpenAI unavailable")
        (fun _ => Except.error "unused") pdf_template_question) "feasibility"
          = some (.pstr "Yes")
    ∧ pyDictLookup (assess_feasibility (Except.error "OpenAI unavailable")
        (fun _ => Except.error "unused") pdf_template_question) "confidence"
          = some (.pstr "High")
    ∧ pyDictLookup (assess_feasibility (Except.error "OpenAI unavailable")
        (fun _ => Except.error "unused") pdf_template_question) "capabilities_used"
          = some (pstrs ["contract_creation", "template_management"])
    ∧ pyInList (.pstr "file_management")
        ((pyDictLookup (assess_feasibility (Except.error "OpenAI unavailable")
          (fun _ => Except.error "unused") pdf_template_question)
          "related_features").getD .pnull) = true := by
  decide

/-- C4 (confirmed): every document successfully processed by the
`add_integration_documents` loop is routed to the collection given by
the fixed type→collection mapping — in particular type `"api"` goes to
`api_specifications` and an unrecognized type defaults to
`integration_guides` — while the stored `source_type` metadata is
always `"integration_guide"` regardless of the target collection. -/
theorem add_integration_documents_routing (now : String) (doc_data : PyVal)
    (cname : String) (doc : LCDocument)
    (h : route_document now doc_data = .ok (cname, doc)) :
    (∃ dt, pyGetD doc_data "type" (.pstr "integration_guide") = .ok dt
        ∧ cname = collection_for_type dt)
    ∧ pyDictLookup doc.metadata "source_type" = some (.pstr "integration_guide")
    ∧ collection_for_type (.pstr "api") = "api_specifications"
    ∧ (∀ t : String, t ∉ integration_collection_mapping.map Prod.fst →
        collection_for_type (.pstr t) = "integration_guides") := by
  refine ⟨?_, ?_, rfl, ?_⟩
  · cases doc_data with
    | pobj kvs =>
      refine ⟨(kvs.lookupStr "type").getD (.pstr "integration_guide"), rfl, ?_⟩
      unfold route_document at h
      simp only [pyGetD, Bind.bind, Except.bind] at h
      cases hc : kvs.lookupStr "content" with
      | none => rw [pyGetItem] at h; rw [hc] at h; simp at h
      | some c =>
        rw [pyGetItem] at h; rw [hc] at h
        cases c with
        | pstr s =>
          simp only [Except.ok.injEq, Prod.mk.injEq] at h
          exact h.1.symm
        | pint n => simp at h
        | pfloat q => simp at h
        | pbool b => simp at h
        | pnull => simp at h
        | parr xs => simp at h
        | pobj o => simp at h
    | pstr s => simp [route_document, pyGetD, Bind.bind, Except.bind] at h
    | pint n => simp [route_document, pyGetD, Bind.bind, Except.bind] at h
    | pfloat q => simp [route_document, pyGetD, Bind.bind, Except.bind] at h
    | pbool b => simp [route_document, pyGetD, Bind.bind, Except.bind] at h
    | pnull => simp [route_document, pyGetD, Bind.bind, Except.bind] at h
    | parr xs => simp [route_document, pyGetD, Bind.bind, Except.bind] at h
  · cases doc_data with
    | pobj kvs =>
      unfold route_document at h
      simp only [pyGetD, Bind.bind, Except.bind] at h
      cases hc : kvs.lookupStr "content" with
      | none => rw [pyGetItem] at h; rw [hc] at h; simp at h
      | some c =>
        rw [pyGetItem] at h; rw [hc] at h
        cases c with
        | pstr s =>
          simp only [Except.ok.injEq, Prod.mk.injEq] at h
          rw [← h.2]
          simp [pyDictLookup, pdict, PyObj.ofList, PyObj.lookupStr, ContentType.value]
        | pint n => simp at h
        | pfloat q => simp at h
        | pbool b => simp at h
        | pnull => simp at h
        | parr xs => simp at h
        | pobj o => simp at h
    | pstr s => simp [route_document, pyGetD, Bind.bind, Except.bind] at h
    | pint n => simp [route_document, pyGetD, Bind.bind, Except.bind] at h
    | pfloat q => simp [route_document, pyGetD, Bind.bind, Except.bind] at h
    | pbool b => simp [route_document, pyGetD, Bind.bind, Except.bind] at h
    | pnull => simp [route_document, pyGetD, Bind.bind, Except.bind] at h
    | parr xs => simp [route_document, pyGetD, Bind.bind, Except.bind] at h
  · intro t ht
    simp only [integration_collection_mapping, List.map, List.mem_cons,
      List.not_mem_nil, or_false, not_or] at ht
    obtain ⟨h1, h2, h3, h4, h5⟩ := ht
    simp [collection_for_type, integration_collection_mapping, List.lookup,
      beq_eq_false_iff_ne.mpr h1, beq_eq_false_iff_ne.mpr h2,
      beq_eq_false_iff_ne.mpr h3, beq_eq_false_iff_ne.mpr h4,
      beq_eq_false_iff_ne.mpr h5]

/-- Witness for C4: a concrete `"api"`-typed document is routed to
`api_specifications` yet tagged `integration_guide`. -/
theorem add_integration_documents_routing_witness :
    route_document "2025-01-01T00:00:00"
        (pdict [("type", .pstr "api"), ("content", .pstr "API endpoint reference")])
      = .ok ("api_specifications",
          ⟨"API endpoint reference", pdict [
            ("source_type", .pstr "integration_guide"),
            ("title", .pstr "Untitled"),
            ("complexity", .pstr "medium"),
            ("integration_level", .pstr "application"),
            ("added_date", .pstr "2025-01-01T00:00:00")]⟩)
    ∧ ((∃ dt, pyGetD (pdict [("type", .pstr "api"), ("content", .pstr "API endpoint reference")])
          "type" (.pstr "integration_guide") = .ok dt
          ∧ "api_specifications" = collection_for_type dt)
      ∧ pyDictLookup (pdict [
            ("source_type", .pstr "integration_guide"),
            ("title", .pstr "Untitled"),
            ("complexity", .pstr "medium"),
            ("integration_level", .pstr "application"),
            ("added_date", .pstr "2025-01-01T00:00:00")]) "source_type"
          = some (.pstr "integration_guide")
      ∧ collection_for_type (.pstr "api") = "api_specifications"
      ∧ (∀ t : String, t ∉ integration_collection_mapping.map Prod.fst →
          collection_for_type (.pstr t) = "integration_guides")) :=
  ⟨rfl, add_integration_documents_routing "2025-01-01T00:00:00"
    (pdict [("type", .pstr "api"), ("content", .pstr "API endpoint reference")])
    "api_specifications"
    ⟨"API endpoint reference", pdict [
      ("source_type", .pstr "integration_guide"),
      ("title", .pstr "Untitled"),
      ("complexity", .pstr "medium"),
      ("integration_level", .pstr "application"),
      ("added_date", .pstr "2025-01-01T00:00:00")]⟩ rfl⟩

/-- The per-file body always raises: its first test is
`filename.lower().endswith('.txt', '.md')`, whose second argument is
used as the slice start and must be an integer. -/
theorem load_one_document_raises (filename content : String) :
    load_one_document filename content
      = .error "TypeError: slice indices must be integers or None or have an __index__ method" :=
  rfl

/-- C5 (code bug): `load_documents_from_folder` yields NO documents for
any folder whatsoever — every file, including well-formed `.txt`, `.md`,
`.docx` and `.doc` files with ample content, is skipped because the
`TypeError` raised by the two-string `endswith` call is caught by the
per-file handler. The spec's claim (one document per supported
non-empty file) matches the function's obvious intent (its own
`supported_extensions` list and summary printing) but not its
behaviour. -/
theorem load_documents_from_folder_always_empty (files : List (String × String)) :
    load_documents_from_folder files = [] := by
  unfold load_documents_from_folder
  dsimp only
  split
  · rfl
  · generalize (files.filter _) = l
    suffices h : ∀ (l : List (String × String)) (acc : List PyVal),
        List.foldl (fun documents f =>
          match load_one_document f.1 f.2 with
          | .ok (some d) => documents ++ [d]
          | .ok none => documents
          | .error _ => documents) acc l = acc from h l []
    intro l
    induction l with
    | nil => intro acc; rfl
    | cons f fs ih => intro acc; rw [List.foldl_cons]; exact ih acc

/-- Inserting at one key keeps every present key present. -/
theorem lookupStr_insert_isSome : ∀ (o : PyObj) (k' : PyKey) (v : PyVal) (f : String),
    (o.lookupStr f).isSome → ((o.insert k' v).lookupStr f).isSome
  | .nil, _, _, f, h => by simp [PyObj.lookupStr] at h
  | .cons k0 v0 rest, k', v, f, h => by
    rw [PyObj.insert]
    split
    · rename_i hk
      rw [PyObj.lookupStr] at h ⊢
      split at h <;> simp_all
    · rename_i hne
      rw [PyObj.lookupStr] at h ⊢
      split at h
      · simp_all
      · rename_i hne2
        rw [if_neg hne2]
        exact lookupStr_insert_isSome rest k' v f h

/-- Inserting a key makes it present. -/
theorem lookupStr_insert_self : ∀ (o : PyObj) (k : String) (v : PyVal),
    ((o.insert (.kstr k) v).lookupStr k).isSome
  | .nil, k, v => by simp [PyObj.insert, PyObj.lookupStr]
  | .cons k0 v0 rest, k, v => by
    rw [PyObj.insert]
    split
    · rename_i hk
      subst hk
      simp [PyObj.lookupStr]
    · rename_i hne
      rw [PyObj.lookupStr]
      split
      · simp
      · exact lookupStr_insert_self rest k v

/-- `setdefault` makes its key present. -/
theorem lookupStr_setdefault_self (o : PyObj) (k : String) (v : PyVal) :
    ((o.setdefault k v).lookupStr k).isSome := by
  rw [PyObj.setdefault]
  cases h : o.lookupStr k with
  | some w => simp [h]
  | none => exact lookupStr_insert_self o k v

/-- `setdefault` keeps every present key present. -/
theorem lookupStr_setdefault_isSome (o : PyObj) (k' : String) (v : PyVal) (f : String)
    (h : (o.lookupStr f).isSome) : ((o.setdefault k' v).lookupStr f).isSome := by
  rw [PyObj.setdefault]
  cases hk : o.lookupStr k' with
  | some w => exact h
  | none => exact lookupStr_insert_isSome o _ v f h

/-- A chain of `setdefault`s keeps every present key present. -/
theorem lookup_foldl_setdefault_isSome (fields : List (String × PyVal)) (o : PyObj)
    (f : String) (h : (o.lookupStr f).isSome) :
    ((fields.foldl (fun d kv => d.setdefault kv.1 kv.2) o).lookupStr f).isSome := by
  induction fields generalizing o with
  | nil => exact h
  | cons kv rest ih =>
    rw [List.foldl_cons]
    exact ih _ (lookupStr_setdefault_isSome o kv.1 kv.2 f h)

/-- After a chain of `setdefault`s, every key of the chain is
present. -/
theorem lookup_foldl_setdefault_mem (fields : List (String × PyVal)) (o : PyObj)
    (f : String) (hf : f ∈ fields.map Prod.fst) :
    ((fields.foldl (fun d kv => d.setdefault kv.1 kv.2) o).lookupStr f).isSome := by
  induction fields generalizing o with
  | nil => simp at hf
  | cons kv rest ih =>
    rw [List.foldl_cons]
    rcases List.mem_cons.mp hf with heq | hmem
    · subst heq
      exact lookup_foldl_setdefault_isSome rest _ _ (lookupStr_setdefault_self o kv.1 kv.2)
    · exact ih _ hmem


/-- A successful `_validate_and_enhance_assessment` contains every
required field. -/
theorem validate_fields (assessment d : PyObj)
    (hv : validate_and_enhance_assessment assessment = .ok d) (f : String)
    (hf : f ∈ simple_required_fields.map Prod.fst) : (d.lookupStr f).isSome := by
  unfold validate_and_enhance_assessment at hv
  simp only [Bind.bind, Except.bind] at hv
  cases hr : explain_confidence
      (simple_required_fields.foldl (fun d kv => d.setdefault kv.1 kv.2) assessment) with
  | error e => rw [hr] at hv; simp at hv
  | ok r =>
    rw [hr] at hv
    simp only [Except.ok.injEq] at hv
    rw [← hv]
    exact lookupStr_insert_isSome _ _ _ f (lookup_foldl_setdefault_mem _ _ f hf)

/-- `_create_fallback_from_text` contains every required field. -/
theorem fallback_from_text_fields (text : String) (f : String)
    (hf : f ∈ simple_required_fields.map Prod.fst) :
    (pyDictLookup (create_fallback_from_text text) f).isSome := by
  fin_cases hf <;>
    simp [create_fallback_from_text, pdict, PyObj.ofList, PyObj.lookupStr, pyDictLookup]

/-- `parse_json_and_validate` contains every required field whatever
`json.loads` returned. -/
theorem parse_json_and_validate_fields (jsonLoads : String → Except String PyVal)
    (json_text text : String) (f : String)
    (hf : f ∈ simple_required_fields.map Prod.fst) :
    (pyDictLookup (parse_json_and_validate jsonLoads json_text text) f).isSome := by
  unfold parse_json_and_validate
  split
  · rename_i kvs heq
    split
    · rename_i d hv
      simpa [pyDictLookup] using validate_fields kvs d hv f hf
    · exact fallback_from_text_fields text f hf
  · exact fallback_from_text_fields text f hf

/-- C6 counterexample: the required-field set that
`_validate_and_enhance_assessment` defaults has EIGHT elements, not
seven (the spec's own schema also lists eight keys). -/
theorem simple_required_fields_not_seven :
    (simple_required_fields.map Prod.fst).length ≠ 7
    ∧ (simple_required_fields.map Prod.fst).length = 8 := by decide

/-- C6 (corrected): for every question and every model outcome
(well-formed JSON, malformed JSON, no JSON at all, or model failure),
the simple engine's returned assessment contains all EIGHT required
fields, with defaults applied for any field absent from the model
output. -/
theorem simple_engine_all_required_fields (llm : Except String String)
    (jsonLoads : String → Except String PyVal) (q : String) (f : String)
    (hf : f ∈ simple_required_fields.map Prod.fst) :
    (pyDictLookup (assess_feasibility llm jsonLoads q) f).isSome = true := by
  cases llm with
  | error e =>
    show (pyDictLookup (create_fallback_assessment q) f).isSome = true
    unfold create_fallback_assessment
    dsimp only
    split
    · fin_cases hf <;> decide
    · split
      · fin_cases hf <;> decide
      · fin_cases hf <;> decide
  | ok text =>
    show (pyDictLookup (parse_openai_response jsonLoads text) f).isSome = true
    unfold parse_openai_response
    split
    · exact parse_json_and_validate_fields jsonLoads _ text f hf
    · split
      · exact parse_json_and_validate_fields jsonLoads _ text f hf
      · exact fallback_from_text_fields text f hf

/-- Witness for C6: a concrete failing model call still yields a
result carrying the `business_impact` field. -/
theorem simple_engine_all_required_fields_witness :
    "business_impact" ∈ simple_required_fields.map Prod.fst
    ∧ (pyDictLookup (assess_feasibility (Except.error "provider down")
        (fun _ => Except.error "unused") "Hello") "business_impact").isSome = true :=
  ⟨by decide, simple_engine_all_required_fields (Except.error "provider down")
    (fun _ => Except.error "unused") "Hello" "business_impact" (by decide)⟩

mutual
/-- The dump/load round trip is the identity on values whose dictionary
keys are all strings. -/
theorem jsonRoundTrip_id : ∀ v : PyVal, allStrKeys v = true → jsonRoundTrip v = v
  | .pstr _, _ => rfl
  | .pint _, _ => rfl
  | .pfloat _, _ => rfl
  | .pbool _, _ => rfl
  | .pnull, _ => rfl
  | .parr xs, h => by
    rw [jsonRoundTrip, jsonRoundTripList_id xs (by simpa [allStrKeys] using h)]
  | .pobj kvs, h => by
    rw [jsonRoundTrip, jsonRoundTripObj_id kvs (by simpa [allStrKeys] using h)]
/-- List part of `jsonRoundTrip_id`. -/
theorem jsonRoundTripList_id : ∀ xs : PyList, allStrKeysList xs = true → jsonRoundTripList xs = xs
  | .nil, _ => rfl
  | .cons x xs, h => by
    rw [allStrKeysList, Bool.and_eq_true] at h
    rw [jsonRoundTripList, jsonRoundTrip_id x h.1, jsonRoundTripList_id xs h.2]
/-- Dictionary part of `jsonRoundTrip_id`. -/
theorem jsonRoundTripObj_id : ∀ kvs : PyObj, allStrKeysObj kvs = true → jsonRoundTripObj kvs = kvs
  | .nil, _ => rfl
  | .cons k v kvs, h => by
    rw [allStrKeysObj.eq_def, Bool.and_eq_true, Bool.and_eq_true] at h
    cases k with
    | kstr s =>
      rw [jsonRoundTripObj, jsonRoundTrip_id v h.1.2, jsonRoundTripObj_id kvs h.2]
      rfl
    | kint n => exact absurd h.1.1 (by simp)
end

/-- C7 (corrected): the knowledge base written by the extractor and
reloaded from the cache file is structurally identical to the
in-memory version used to produce it (ignoring timestamp metadata,
which is already a fixed string here) PROVIDED every mapping key in the
produced knowledge base is a string. A specification carrying bare YAML
integer keys (e.g. a `200:` response code) breaks the round trip
because `json.dump` stringifies such keys — see the counterexample. -/
theorem knowledge_base_roundtrip_of_str_keys (api_spec : PyVal) (ts : String)
    (h : allStrKeys (create_knowledge_base api_spec ts) = true) :
    jsonRoundTrip (create_knowledge_base api_spec ts) = create_knowledge_base api_spec ts :=
  jsonRoundTrip_id _ h

/-- Witness for C7: the all-string-keys specification round-trips. -/
theorem knowledge_base_roundtrip_of_str_keys_witness :
    allStrKeys (create_knowledge_base spec_with_str_response_code "2025-01-01T00:00:00") = true
    ∧ jsonRoundTrip (create_knowledge_base spec_with_str_response_code "2025-01-01T00:00:00")
        = create_knowledge_base spec_with_str_response_code "2025-01-01T00:00:00" :=
  ⟨by decide, knowledge_base_roundtrip_of_str_keys spec_with_str_response_code
    "2025-01-01T00:00:00" (by decide)⟩

/-- C7 counterexample: a successfully processed specification with a
bare integer `200` response-code key produces a knowledge base that
does NOT reload identically — the reloaded copy holds the string key
`"200"` where the in-memory one holds the integer `200`. -/
theorem knowledge_base_roundtrip_counterexample :
    jsonRoundTrip (create_knowledge_base spec_with_int_response_code "2025-01-01T00:00:00")
      ≠ create_knowledge_base spec_with_int_response_code "2025-01-01T00:00:00" := by
  decide

/-- C8 (confirmed): when the knowledge-base cache file is present and
not due for age-based refresh but `json.load` fails on it, the loader
deletes the file and regenerates via the specification fetch path
(`_create_knowledge_base` applied with no cache file on disk), exactly
as it does on a cache miss. -/
theorem corrupted_cache_regenerates (jsonLoad : String → Except String PyVal)
    (create : Option CacheFileState → PyVal × Option CacheFileState)
    (cache_refresh_hours : Rat) (f : CacheFileState) (e : String)
    (hfresh : ¬ f.ageHours > cache_refresh_hours)
    (hbad : jsonLoad f.contents = .error e) :
    load_or_create_knowledge_base jsonLoad create cache_refresh_hours (some f) = create none
    ∧ load_or_create_knowledge_base jsonLoad create cache_refresh_hours (some f)
        = load_or_create_knowledge_base jsonLoad create cache_refresh_hours none := by
  have hs : should_refresh_cache cache_refresh_hours (some f) = false := by
    simp [should_refresh_cache, hfresh]
  have h1 : load_or_create_knowledge_base jsonLoad create cache_refresh_hours (some f)
      = create none := by
    simp [load_or_create_knowledge_base, hs, hbad]
  have h2 : load_or_create_knowledge_base jsonLoad create cache_refresh_hours none
      = create none := by
    simp [load_or_create_knowledge_base, should_refresh_cache]
  exact ⟨h1, h1.trans h2.symm⟩

/-- Witness for C8: a fresh but unparsable cache file concretely
regenerates from scratch. -/
theorem corrupted_cache_regenerates_witness :
    load_or_create_knowledge_base
        (fun _ => Except.error "Expecting value: line 1 column 1 (char 0)")
        (fun _ => (get_fallback_knowledge_base "2025-01-01T00:00:00", some ⟨"\x7b\x7d", 0⟩))
        24 (some ⟨"not json", 1⟩)
      = (fun _ => (get_fallback_knowledge_base "2025-01-01T00:00:00", some ⟨"\x7b\x7d", 0⟩))
          (none : Option CacheFileState)
    ∧ load_or_create_knowledge_base
        (fun _ => Except.error "Expecting value: line 1 column 1 (char 0)")
        (fun _ => (get_fallback_knowledge_base "2025-01-01T00:00:00", some ⟨"\x7b\x7d", 0⟩))
        24 (some ⟨"not json", 1⟩)
      = load_or_create_knowledge_base
          (fun _ => Except.error "Expecting value: line 1 column 1 (char 0)")
          (fun _ => (get_fallback_knowledge_base "2025-01-01T00:00:00", some ⟨"\x7b\x7d", 0⟩))
          24 none :=
  corrupted_cache_regenerates _ _ 24 ⟨"not json", 1⟩
    "Expecting value: line 1 column 1 (char 0)" (by norm_num) rfl

/-- C9 (confirmed): `generate_response` is a deterministic, pure
function of the assessment and the question: its result is independent
of the ambient world state (the process clock and any other external
state available to the class), so two invocations with identical inputs
produce identical sectioned text. -/
theorem generate_response_deterministic (w w' : WorldState) (assessment : PyVal)
    (original_question : String) :
    generate_response w assessment original_question
      = generate_response w' assessment original_question := rfl

/-- Inversion for a successful `Except` bind. -/
theorem except_bind_ok {α β : Type} {x : Except String α} {f : α → Except String β} {b : β}
    (h : (x >>= f) = .ok b) : ∃ a, x = .ok a ∧ f a = .ok b := by
  cases x with
  | error e => simp [Bind.bind, Except.bind] at h
  | ok a => exact ⟨a, rfl, h⟩

/-- Inserting a conforming record keeps the endpoints mapping flat. -/
theorem flat_insert : ∀ (o : PyObj) (k : PyKey) (pv : PyVal) (rest : PyObj),
    flat_endpoint_records o = true →
    (match pv with | .pobj _ => false | _ => true) = true →
    flat_endpoint_records (o.insert k (.pobj (.cons (.kstr "path") pv rest))) = true
  | .nil, k, pv, rest, _, hpv => by
    simp [PyObj.insert, flat_endpoint_records, hpv]
  | .cons k0 v0 tl, k, pv, rest, ho, hpv => by
    rw [flat_endpoint_records.eq_def, Bool.and_eq_true] at ho
    rw [PyObj.insert]
    split
    · rw [flat_endpoint_records.eq_def, Bool.and_eq_true]
      exact ⟨hpv, ho.2⟩
    · rw [flat_endpoint_records.eq_def, Bool.and_eq_true]
      exact ⟨ho.1, flat_insert tl k pv rest ho.2 hpv⟩

/-- A monadic fold whose step preserves flatness preserves flatness. -/
theorem foldlM_flat_preserve {α : Type} (step : PyObj → α → Except String PyObj)
    (hstep : ∀ acc x out, flat_endpoint_records acc = true → step acc x = .ok out →
      flat_endpoint_records out = true) :
    ∀ (l : List α) (acc out : PyObj), flat_endpoint_records acc = true →
      l.foldlM step acc = .ok out → flat_endpoint_records out = true := by
  intro l
  induction l with
  | nil =>
    intro acc out hacc h
    rw [List.foldlM_nil] at h
    cases h
    exact hacc
  | cons x xs ih =>
    intro acc out hacc h
    rw [List.foldlM_cons] at h
    obtain ⟨acc', hx, h⟩ := except_bind_ok h
    exact ih acc' out (hstep acc x acc' hacc hx) h

/-- Everything `_extract_endpoints` produces is in the flat format:
each record's first field is `path` holding a string (or the raw
integer path key) — never a dict. -/
theorem extract_endpoints_flat (api_spec : PyVal) (eps : PyObj)
    (h : extract_endpoints api_spec = .ok (.pobj eps)) :
    flat_endpoint_records eps = true := by
  unfold extract_endpoints at h
  obtain ⟨paths, hp, h⟩ := except_bind_ok h
  obtain ⟨pathItems, hpi, h⟩ := except_bind_ok h
  obtain ⟨endpoints, hend, h⟩ := except_bind_ok h
  simp only [pure, Except.pure, Except.ok.injEq, PyVal.pobj.injEq] at h
  subst h
  refine foldlM_flat_preserve _ ?_ pathItems PyObj.nil _ rfl hend
  intro acc pe out hacc hstep
  obtain ⟨mis, hmi, hstep⟩ := except_bind_ok hstep
  refine foldlM_flat_preserve _ ?_ mis acc out hacc hstep
  intro acc2 me out2 hacc2 h2
  obtain ⟨mk, mv⟩ := me
  cases mk with
  | kint n => simp at h2
  | kstr m =>
    dsimp only at h2
    by_cases hin : strUpper m ∈ ["GET", "POST", "PUT", "DELETE", "PATCH"]
    · rw [if_pos hin] at h2
      obtain ⟨summary, _, h2⟩ := except_bind_ok h2
      obtain ⟨description, _, h2⟩ := except_bind_ok h2
      obtain ⟨operationId, _, h2⟩ := except_bind_ok h2
      obtain ⟨tags, _, h2⟩ := except_bind_ok h2
      obtain ⟨parameters, _, h2⟩ := except_bind_ok h2
      obtain ⟨request_body, _, h2⟩ := except_bind_ok h2
      obtain ⟨responses, _, h2⟩ := except_bind_ok h2
      obtain ⟨workflow_category, _, h2⟩ := except_bind_ok h2
      obtain ⟨prerequisites, _, h2⟩ := except_bind_ok h2
      obtain ⟨follow_ups, _, h2⟩ := except_bind_ok h2
      simp only [pure, Except.pure, Except.ok.injEq] at h2
      subst h2
      exact flat_insert acc2 _ (keyToVal pe.1) _ hacc2 (by cases pe.1 <;> rfl)
    · rw [if_neg hin] at h2
      simp only [pure, Except.pure, Except.ok.injEq] at h2
      subst h2
      exact hacc2

/-- C10 (confirmed): a knowledge base whose `endpoints` mapping is in
the flat format produced by `_extract_endpoints` makes
`_process_existing_api_docs` return the empty list: the nested loop
treats the record's fields as per-method sub-records, `data.get` raises
`AttributeError` on the first non-dict field value (`path`), and the
blanket `except` yields `[]` — so the `api_specifications` collection
receives no documents. The second conjunct instantiates this for the
endpoints mapping actually produced by `_extract_endpoints` on a
concrete specification; `extract_endpoints_flat` shows every produced
mapping is flat. -/
theorem process_existing_api_docs_flat_empty :
    (∀ (meta workflows schemas : PyVal) (eps : PyObj), flat_endpoint_records eps = true →
      process_existing_api_docs (.pobj (PyObj.ofList [
        (.kstr "metadata", meta), (.kstr "endpoints", .pobj eps),
        (.kstr "workflows", workflows), (.kstr "schemas", schemas)])) = [])
    ∧ (match extract_endpoints spec_with_str_response_code with
       | .ok (.pobj e) => flat_endpoint_records e
           && decide (process_existing_api_docs (.pobj (PyObj.ofList [
               (.kstr "metadata", .pnull), (.kstr "endpoints", .pobj e),
               (.kstr "workflows", define_workflows), (.kstr "schemas", pdict [])])) = [])
       | _ => false) = true := by
  constructor
  · intro meta workflows schemas eps hflat
    cases eps with
    | nil => rfl
    | cons k v rest =>
      rw [flat_endpoint_records.eq_def, Bool.and_eq_true] at hflat
      obtain ⟨h1, _⟩ := hflat
      split at h1
      · rename_i pv tail
        cases pv with
        | pstr s => rfl
        | pint n => rfl
        | pfloat q => rfl
        | pbool b => rfl
        | pnull => rfl
        | parr xs => rfl
        | pobj o => simp at h1
      · simp at h1
  · decide

/-- Witness for C10: a one-record flat endpoints mapping yields no
documents. -/
theorem process_existing_api_docs_flat_empty_witness :
    flat_endpoint_records (PyObj.ofList [(.kstr "GET /accounts/me", pdict [
        ("path", .pstr "/accounts/me"), ("method", .pstr "GET")])]) = true
    ∧ process_existing_api_docs (.pobj (PyObj.ofList [
        (.kstr "metadata", .pnull),
        (.kstr "endpoints", .pobj (PyObj.ofList [(.kstr "GET /accounts/me", pdict [
          ("path", .pstr "/accounts/me"), ("method", .pstr "GET")])])),
        (.kstr "workflows", .pnull), (.kstr "schemas", .pnull)])) = [] :=
  ⟨by decide, process_existing_api_docs_flat_empty.1 .pnull .pnull .pnull
    (PyObj.ofList [(.kstr "GET /accounts/me", pdict [
      ("path", .pstr "/accounts/me"), ("method", .pstr "GET")])]) (by decide)⟩

end OneFlow
